import Mathlib

/-!
Verification development for the parasail-python binding layer
(`parasail/bindings_v2.py`).

The binding is a ctypes FFI wrapper: Python classes (`Matrix`, `Profile`,
`Result`, `Cigar`, `Sequence`, `Sequences`) own opaque native pointers, and
several hundred generated dispatch functions marshal arguments into one
native symbol each and wrap the returned pointer in a `Result`.

Embedding conventions:
- A nullable native pointer of struct kind `T` is modelled as `Option T`,
  with `none` standing for NULL; the pointed-to struct is carried as the
  value itself.  Opaque data pointers that the binding never dereferences
  are modelled as `Nat` addresses.
- The native library (`_lib`, an external shared object) is modelled as an
  explicit `NativeEnv` record of pure functions, one per native symbol used
  by the binding.  Generated alignment entry points are indexed by their
  symbol name (a `String` argument), mirroring the code-generated wrappers
  that differ only in the symbol they invoke.
- Python exceptions are modelled with `Except PyErr` (or, for functions
  whose side effects matter, a pair of a call log and an optional error).
- Native calls that matter to the claims (matrix free, matrix set-value,
  cigar construction) are made observable as explicit call logs / counters
  returned alongside the value.
- Python `str` is `String`; `bytes` is `List Nat`; `b()`/`s()` latin-1
  conversions become `bEnc`/`sDec`.
-/

set_option autoImplicit false

namespace Parasail

/-- Python `bytes` values (latin-1 byte strings). -/
abbrev Bytes := List Nat

/-- `b(x)`: latin-1 encoding of a Python `str` (bindings_v2.py line 35). -/
def bEnc (s : String) : Bytes := s.data.map Char.toNat

/-- `s(x)`: latin-1 decoding of Python `bytes` (bindings_v2.py line 40). -/
def sDec (bs : Bytes) : String := String.mk (bs.map Char.ofNat)

/-- `b(x)` applied to a value that may be `None` (`b(None)` returns `None`,
since `None` is neither `str` nor `bytes`). -/
def bOpt (s : Option String) : Option Bytes := s.map bEnc

/-- Python exceptions raised by the binding layer. -/
inductive PyErr where
  | valueError (msg : String)
  | typeError (msg : String)
  | indexError (msg : String)
  | attributeError (msg : String)
deriving DecidableEq, Repr

/-! ### Native struct layouts (the ctypes `Structure` declarations) -/

/-- `result_t` (bindings_v2.py line 62): score/end fields read directly by
the `Result` accessors, plus the opaque flag/extra fields. -/
structure result_t where
  score : Int
  end_query : Int
  end_ref : Int
  flag : Int
  extra : Option Nat
deriving DecidableEq, Repr

/-- `cigar_t` (bindings_v2.py line 75). -/
structure cigar_t where
  seq : Option Nat
  len : Int
  beg_query : Int
  beg_ref : Int
deriving DecidableEq, Repr

/-- `pstring_t` (bindings_v2.py line 98): a length-prefixed C string; the
`s` field is a nullable `c_char_p`. -/
structure pstring_t where
  l : Nat
  s : Option Bytes
deriving DecidableEq, Repr

/-- `sequence_t` (bindings_v2.py line 104). -/
structure sequence_t where
  name : pstring_t
  comment : pstring_t
  seq : pstring_t
  qual : pstring_t
deriving DecidableEq, Repr

/-- `sequences_t` (bindings_v2.py line 114): the `seqs` field is a native
array holding the collection's records; its allocated extent is the list. -/
structure sequences_t where
  seqs : List sequence_t
  l : Nat
  characters : Nat
  shortest : Nat
  longest : Nat
  mean : Float
  stddev : Float

/-- `matrix_t` (bindings_v2.py line 313): `matrix` and `mapper` are opaque
`c_int_p` data pointers; `user_matrix` is the ownership flag, NULL for
matrices the binding does not own. -/
structure matrix_t where
  name : Option Bytes
  matrix : Nat
  mapper : Nat
  size : Int
  max : Int
  min : Int
  user_matrix : Option Nat
deriving DecidableEq, Repr

/-- `profile_data_t` (bindings_v2.py line 398).  The source field `matches`
is renamed `matches_` because `matches` is a Lean keyword. -/
structure profile_data_t where
  score : Option Nat
  matches_ : Option Nat
  similar : Option Nat
deriving DecidableEq, Repr

/-- `profile_t` (bindings_v2.py line 405). -/
structure profile_t where
  s1 : Option Bytes
  s1Len : Int
  matrix : Option matrix_t
  profile8 : profile_data_t
  profile16 : profile_data_t
  profile32 : profile_data_t
  profile64 : profile_data_t
  free : Option Nat
  stop : Int
deriving DecidableEq, Repr

/-! ### Python handle classes -/

/-- The Python `Matrix` class (bindings_v2.py line 326): wraps a nullable
native `matrix_t` pointer. -/
structure Matrix where
  pointer : Option matrix_t
deriving DecidableEq, Repr

/-- The Python `Profile` class (bindings_v2.py line 420): wraps a native
profile pointer, keeps the `Matrix` object alive (`matrix_`), and retains
the encoded query bytes (`s1b`). -/
structure Profile where
  pointer : Option profile_t
  matrix_ : Matrix
  s1b : Bytes
deriving DecidableEq, Repr

/-- The Python `Cigar` class (bindings_v2.py line 127): wraps a nullable
native `cigar_t` pointer. -/
structure Cigar where
  pointer : Option cigar_t
deriving DecidableEq, Repr

/-- The Python `Result` class (bindings_v2.py line 177).  Besides the native
pointer it stores the query/reference lengths supplied at dispatch time,
optionally the original sequences and matrix (trace dispatches), and the
lazily-cached cigar (`self._cigar`). -/
structure Result where
  pointer : Option result_t
  len_query : Nat
  len_ref : Nat
  query : Option String
  ref : Option String
  matrix : Option Matrix
  cigar_ : Option Cigar
deriving DecidableEq, Repr

/-- The Python `Sequence` class (bindings_v2.py line 836): a non-owning view
of one `sequence_t`.  `pointer = none` models a view created from memory
outside the owning collection's allocation (contents undefined). -/
structure Sequence where
  pointer : Option sequence_t
deriving DecidableEq, Repr

/-- The Python `Sequences` class (bindings_v2.py line 874). -/
structure Sequences where
  pointer : Option sequences_t

/-- A numpy array view created by `_make_nd_array` (bindings_v2.py line 46):
a raw base pointer plus the shape the wrapper chose. -/
structure NDArray where
  base : Nat
  shape : List Nat
deriving DecidableEq, Repr

/-- `_make_nd_array(c_pointer, shape)`: builds the bounds-providing view. -/
def make_nd_array (c_pointer : Nat) (shape : List Nat) : NDArray :=
  { base := c_pointer, shape := shape }

/-! ### The native library

The shared object `_lib` is external to this repository; the binding calls
a fixed set of symbols on it.  Each symbol becomes a field; the generated
alignment entry points and the `parasail_profile_create_*` family are
indexed by symbol name, since the generated wrappers differ only in which
symbol they invoke.  Functions receive the (possibly NULL) pointers exactly
as ctypes would pass them. -/
structure NativeEnv where
  matrix_lookup : Bytes → Option matrix_t
  matrix_from_file : Bytes → Option matrix_t
  /-- `os.path.isfile`, consulted by `Matrix.__init__` before
  `parasail_matrix_from_file`. -/
  isfile : String → Bool
  matrix_create : Bytes → Int → Int → Option matrix_t
  matrix_copy : Option matrix_t → Option matrix_t
  profile_create : String → Bytes → Nat → Option matrix_t → Option profile_t
  ssw_init : Bytes → Nat → Option matrix_t → Int → Option profile_t
  alignSeq : String → Bytes → Nat → Bytes → Nat → Int → Int →
    Option matrix_t → Option result_t
  alignBanded : String → Bytes → Nat → Bytes → Nat → Int → Int → Int →
    Option matrix_t → Option result_t
  alignProfile : String → Option profile_t → Bytes → Nat → Int → Int →
    Option result_t
  is_stats : Option result_t → Int
  is_table : Option result_t → Int
  is_stats_table : Option result_t → Int
  is_rowcol : Option result_t → Int
  is_trace : Option result_t → Int
  get_matches : Option result_t → Int
  get_similar : Option result_t → Int
  get_length : Option result_t → Int
  get_score_table : Option result_t → Nat
  get_matches_table : Option result_t → Nat
  get_similar_table : Option result_t → Nat
  get_length_table : Option result_t → Nat
  get_score_row : Option result_t → Nat
  get_matches_row : Option result_t → Nat
  get_similar_row : Option result_t → Nat
  get_length_row : Option result_t → Nat
  get_score_col : Option result_t → Nat
  get_matches_col : Option result_t → Nat
  get_similar_col : Option result_t → Nat
  get_length_col : Option result_t → Nat
  result_get_cigar : Option result_t → Option Bytes → Nat → Option Bytes →
    Nat → Option matrix_t → Option cigar_t

/-! ### Matrix construction, destruction, copy (bindings_v2.py lines 326-369) -/

/-- `Matrix.__init__` on a string argument (bindings_v2.py lines 329-341):
try `parasail_matrix_lookup`; on NULL, fall back to
`parasail_matrix_from_file` when the name is an existing file, raising
`ValueError` when it is not a file or when the file-based construction also
returns NULL. -/
def Matrix.initFromString (env : NativeEnv) (name : String) :
    Except PyErr Matrix :=
  match env.matrix_lookup (bEnc name) with
  | some p => .ok { pointer := some p }
  | none =>
    if env.isfile name then
      match env.matrix_from_file (bEnc name) with
      | some p => .ok { pointer := some p }
      | none => .error (.valueError "specified matrix not found")
    else
      .error (.valueError ("Cannot open matrix file `" ++ name ++ "\x27"))

/-- `Matrix.__init__` on a non-string argument (bindings_v2.py lines
342-343): the pointer is wrapped as-is, with no NULL check and no
possibility of an exception. -/
def Matrix.initFromPointer (pointer : Option matrix_t) : Matrix :=
  { pointer := pointer }

/-- One recorded invocation of `parasail_matrix_free`. -/
abbrev FreeCall := Unit

/-- `Matrix.__del__` (bindings_v2.py lines 346-348): frees the native
matrix only when `self.pointer[0].user_matrix` is truthy (non-NULL).
Returns the list of `parasail_matrix_free` invocations and the exception,
if any, raised by dereferencing a NULL `self.pointer`. -/
def Matrix.del (m : Matrix) : List FreeCall × Option PyErr :=
  match m.pointer with
  | none => ([], some (.valueError "NULL pointer access"))
  | some p => (if p.user_matrix.isSome then [()] else [], none)

/-- One recorded invocation of `parasail_matrix_set_value`:
(row, column, value). -/
abbrev SetCall := Int × Int × Int

/-- `Matrix.set_value` (bindings_v2.py lines 366-367): a single native
set-value call. -/
def Matrix.set_value (m : Matrix) (row col value : Int) :
    List SetCall × Option PyErr :=
  ([(row, col, value)], none)

/-- `Matrix.copy` (bindings_v2.py lines 368-369): wraps whatever pointer
`parasail_matrix_copy` returns (the non-string `__init__` path). -/
def Matrix.copy (env : NativeEnv) (m : Matrix) : Matrix :=
  Matrix.initFromPointer (env.matrix_copy m.pointer)

/-- `matrix_create` (bindings_v2.py lines 623-624): wraps whatever pointer
`parasail_matrix_create` returns (the non-string `__init__` path). -/
def matrix_create (env : NativeEnv) (alphabet : String) (mtch msmtch : Int) :
    Matrix :=
  Matrix.initFromPointer (env.matrix_create (bEnc alphabet) mtch msmtch)

/-! ### Python `range` and slice semantics used by `Matrix.__setitem__` -/

/-- Number of elements of Python `range(a, b, st)` for `st ≠ 0`. -/
def pyRangeCount (a b st : Int) : Nat :=
  if 0 < st then (((b - a) + st - 1) / st).toNat
  else if st < 0 then (((a - b) + (-st) - 1) / (-st)).toNat
  else 0

/-- Python `range(a, b, st)` as the list `a, a+st, a+2*st, ...`. -/
def pyRange (a b st : Int) : List Int :=
  (List.range (pyRangeCount a b st)).map (fun i => a + st * Int.ofNat i)

/-- The `step or 1` idiom (bindings_v2.py line 377 etc.): Python `or`
replaces a falsy step (`None` or `0`) with `1`. -/
def orOne (st : Option Int) : Int :=
  match st with
  | none => 1
  | some k => if k = 0 then 1 else k

/-- `range(start, stop, step)` where `start`/`stop` come from a slice
object and may be `None`: Python raises `TypeError` when `range` receives
`None`. -/
def pyRangeE (a b : Option Int) (st : Int) : Except PyErr (List Int) :=
  match a, b with
  | some a0, some b0 => .ok (pyRange a0 b0 st)
  | _, _ =>
    .error (.typeError
      "\x27NoneType\x27 object cannot be interpreted as an integer")

/-- Subscripting a Python `slice` object (`key[0]` where `key` is a bare
slice, bindings_v2.py line 390): slices define no `__getitem__`, so any
subscript raises `TypeError` and produces no value. -/
def sliceSubscript (start stop step : Option Int) (i : Int) :
    Except PyErr Empty :=
  .error (.typeError "\x27slice\x27 object is not subscriptable")

/-- Index values appearing inside a `Matrix.__setitem__` key: a Python
`int` or a `slice` object. -/
inductive PyIx where
  | int (i : Int)
  | slice (start stop step : Option Int)
deriving DecidableEq, Repr

/-- A `Matrix.__setitem__` key: a list/tuple of index values, a bare slice,
or a bare integer (the code's `else` branch assumes `int`). -/
inductive MKey where
  | tup (elems : List PyIx)
  | slice (start stop step : Option Int)
  | int (i : Int)
deriving DecidableEq, Repr

/-- The two nested loops of the slice-pair branch (bindings_v2.py lines
377-379): for each row the inner `range` is re-evaluated and the row's
cells are written; an inner `range` error aborts with the writes of earlier
rows already made (none can precede the first evaluation). -/
def sliceRowsLoop (a1 b1 st1 : Option Int) (v : Int) :
    List Int → List SetCall × Option PyErr
  | [] => ([], none)
  | r :: rest =>
    match pyRangeE a1 b1 (orOne st1) with
    | .error err => ([], some err)
    | .ok cs =>
      let rest' := sliceRowsLoop a1 b1 st1 v rest
      (cs.map (fun c => (r, c, v)) ++ rest'.1, rest'.2)

/-- `Matrix.__setitem__` (bindings_v2.py lines 370-396).  Returns the list
of `parasail_matrix_set_value` invocations made, in order, together with
the exception raised, if any. -/
def Matrix.setitem (m : Matrix) (key : MKey) (value : Int) :
    List SetCall × Option PyErr :=
  match key with
  | .tup [] => ([], some (.indexError "too few keys in setitem"))
  | .tup [_] => ([], some (.indexError "too few keys in setitem"))
  | .tup (_ :: _ :: _ :: _) => ([], some (.indexError "too many keys in setitem"))
  | .tup [.slice a0 b0 st0, .slice a1 b1 st1] =>
    (match pyRangeE a0 b0 (orOne st0) with
     | .error err => ([], some err)
     | .ok rs => sliceRowsLoop a1 b1 st1 value rs)
  | .tup [.slice a0 b0 st0, .int j] =>
    (match pyRangeE a0 b0 (orOne st0) with
     | .error err => ([], some err)
     | .ok rs => (rs.map (fun r => (r, j, value)), none))
  | .tup [.int i, .slice a1 b1 st1] =>
    (match pyRangeE a1 b1 (orOne st1) with
     | .error err => ([], some err)
     | .ok cs => (cs.map (fun c => (i, c, value)), none))
  | .tup [.int i, .int j] => ([(i, j, value)], none)
  | .slice a b st =>
    (match sliceSubscript a b st 0 with
     | .error err => ([], some err)
     | .ok x => x.elim)
  | .int k =>
    (match m.pointer with
     | none => ([], some (.valueError "NULL pointer access"))
     | some p => ((pyRange 0 p.size 1).map (fun c => (k, c, value)), none))

/-! ### Profile construction (bindings_v2.py lines 420-509, 830-831) -/

/-- The positional arguments supplied at a call of the `Profile`
constructor.  `Profile.__init__(self, pointer, matrix, s1b)` declares three
required parameters (bindings_v2.py line 421); call sites in the module
pass either three arguments (the `profile_create_*` family) or two
(`ssw_init`, line 831). -/
inductive ProfileCtorArgs where
  | two (pointer : Option profile_t) (matrix : Matrix)
  | three (pointer : Option profile_t) (matrix : Matrix) (s1b : Bytes)

/-- Calling `Profile(...)`: Python checks the positional-argument count
against the three required parameters of `__init__` and raises `TypeError`
before the body runs when one is missing; with three arguments the body
stores them unchecked. -/
def profileNew (args : ProfileCtorArgs) : Except PyErr Profile :=
  match args with
  | .three pointer matrix s1b =>
    .ok { pointer := pointer, matrix_ := matrix, s1b := s1b }
  | .two _ _ =>
    .error (.typeError
      "__init__() missing 1 required positional argument: \x27s1b\x27")

/-- The common body of the ten `profile_create_*` wrappers (bindings_v2.py
lines 471-509), indexed by the native symbol each one invokes:
`s1b = b(s1); return Profile(parasail_<sym>(s1b, len(s1), matrix), matrix,
s1b)`.  No NULL check is made on the native return. -/
def profileCreate (sym : String) (env : NativeEnv) (s1 : String)
    (matrix : Matrix) : Except PyErr Profile :=
  let s1b := bEnc s1
  profileNew (.three (env.profile_create sym s1b s1.length matrix.pointer)
    matrix s1b)

def profile_create_8 : NativeEnv → String → Matrix → Except PyErr Profile :=
  profileCreate "parasail_profile_create_8"

def profile_create_16 : NativeEnv → String → Matrix → Except PyErr Profile :=
  profileCreate "parasail_profile_create_16"

def profile_create_32 : NativeEnv → String → Matrix → Except PyErr Profile :=
  profileCreate "parasail_profile_create_32"

def profile_create_64 : NativeEnv → String → Matrix → Except PyErr Profile :=
  profileCreate "parasail_profile_create_64"

def profile_create_sat : NativeEnv → String → Matrix → Except PyErr Profile :=
  profileCreate "parasail_profile_create_sat"

def profile_create_stats_8 : NativeEnv → String → Matrix → Except PyErr Profile :=
  profileCreate "parasail_profile_create_stats_8"

def profile_create_stats_16 : NativeEnv → String → Matrix → Except PyErr Profile :=
  profileCreate "parasail_profile_create_stats_16"

def profile_create_stats_32 : NativeEnv → String → Matrix → Except PyErr Profile :=
  profileCreate "parasail_profile_create_stats_32"

def profile_create_stats_64 : NativeEnv → String → Matrix → Except PyErr Profile :=
  profileCreate "parasail_profile_create_stats_64"

def profile_create_stats_sat : NativeEnv → String → Matrix → Except PyErr Profile :=
  profileCreate "parasail_profile_create_stats_sat"

/-- `ssw_init` (bindings_v2.py lines 830-831):
`return Profile(parasail_ssw_init(b(s1), len(s1), matrix, score_size),
matrix)` — only two positional arguments reach the three-parameter
`Profile.__init__`. -/
def ssw_init (env : NativeEnv) (s1 : String) (matrix : Matrix)
    (score_size : Int) : Except PyErr Profile :=
  profileNew (.two (env.ssw_init (bEnc s1) s1.length matrix.pointer
    score_size) matrix)

/-! ### Result accessors (bindings_v2.py lines 177-311) -/

/-- `Result.score` (line 194): a direct struct read, no capability gate. -/
def Result.score (r : Result) : Except PyErr Int :=
  match r.pointer with
  | some p => .ok p.score
  | none => .error (.valueError "NULL pointer access")

/-- `Result.end_query` (line 212): a direct struct read. -/
def Result.end_query (r : Result) : Except PyErr Int :=
  match r.pointer with
  | some p => .ok p.end_query
  | none => .error (.valueError "NULL pointer access")

/-- `Result.end_ref` (line 215): a direct struct read. -/
def Result.end_ref (r : Result) : Except PyErr Int :=
  match r.pointer with
  | some p => .ok p.end_ref
  | none => .error (.valueError "NULL pointer access")

/-- `Result.matches` (lines 197-200; source name `matches`, a Lean
keyword): gated on `parasail_result_is_stats`. -/
def Result.matches_ (env : NativeEnv) (r : Result) : Except PyErr Int :=
  if env.is_stats r.pointer = 0 then
    .error (.attributeError "\x27Result\x27 object has no stats")
  else .ok (env.get_matches r.pointer)

/-- `Result.similar` (lines 202-205): gated on `parasail_result_is_stats`. -/
def Result.similar (env : NativeEnv) (r : Result) : Except PyErr Int :=
  if env.is_stats r.pointer = 0 then
    .error (.attributeError "\x27Result\x27 object has no stats")
  else .ok (env.get_similar r.pointer)

/-- `Result.length` (lines 207-210): gated on `parasail_result_is_stats`. -/
def Result.length (env : NativeEnv) (r : Result) : Except PyErr Int :=
  if env.is_stats r.pointer = 0 then
    .error (.attributeError "\x27Result\x27 object has no stats")
  else .ok (env.get_length r.pointer)

/-- `Result.score_table` (lines 218-224): gated on
`parasail_result_is_table` or `parasail_result_is_stats_table`; the view is
shaped by the lengths captured at dispatch time. -/
def Result.score_table (env : NativeEnv) (r : Result) : Except PyErr NDArray :=
  if env.is_table r.pointer = 0 ∧ env.is_stats_table r.pointer = 0 then
    .error (.attributeError "\x27Result\x27 object has no score table")
  else .ok (make_nd_array (env.get_score_table r.pointer)
    [r.len_query, r.len_ref])

/-- `Result.matches_table` (lines 226-231): gated on
`parasail_result_is_stats_table`. -/
def Result.matches_table (env : NativeEnv) (r : Result) : Except PyErr NDArray :=
  if env.is_stats_table r.pointer = 0 then
    .error (.attributeError "\x27Result\x27 object has no stats tables")
  else .ok (make_nd_array (env.get_matches_table r.pointer)
    [r.len_query, r.len_ref])

/-- `Result.similar_table` (lines 233-238). -/
def Result.similar_table (env : NativeEnv) (r : Result) : Except PyErr NDArray :=
  if env.is_stats_table r.pointer = 0 then
    .error (.attributeError "\x27Result\x27 object has no stats tables")
  else .ok (make_nd_array (env.get_similar_table r.pointer)
    [r.len_query, r.len_ref])

/-- `Result.length_table` (lines 240-245). -/
def Result.length_table (env : NativeEnv) (r : Result) : Except PyErr NDArray :=
  if env.is_stats_table r.pointer = 0 then
    .error (.attributeError "\x27Result\x27 object has no stats tables")
  else .ok (make_nd_array (env.get_length_table r.pointer)
    [r.len_query, r.len_ref])

/-- `Result.score_row` (lines 247-252): gated on
`parasail_result_is_rowcol`; a row spans the reference length. -/
def Result.score_row (env : NativeEnv) (r : Result) : Except PyErr NDArray :=
  if env.is_rowcol r.pointer = 0 then
    .error (.attributeError "\x27Result\x27 object has no row/col arrays")
  else .ok (make_nd_array (env.get_score_row r.pointer) [r.len_ref])

/-- `Result.matches_row` (lines 254-259). -/
def Result.matches_row (env : NativeEnv) (r : Result) : Except PyErr NDArray :=
  if env.is_rowcol r.pointer = 0 then
    .error (.attributeError "\x27Result\x27 object has no row/col arrays")
  else .ok (make_nd_array (env.get_matches_row r.pointer) [r.len_ref])

/-- `Result.similar_row` (lines 261-266). -/
def Result.similar_row (env : NativeEnv) (r : Result) : Except PyErr NDArray :=
  if env.is_rowcol r.pointer = 0 then
    .error (.attributeError "\x27Result\x27 object has no row/col arrays")
  else .ok (make_nd_array (env.get_similar_row r.pointer) [r.len_ref])

/-- `Result.length_row` (lines 268-273). -/
def Result.length_row (env : NativeEnv) (r : Result) : Except PyErr NDArray :=
  if env.is_rowcol r.pointer = 0 then
    .error (.attributeError "\x27Result\x27 object has no row/col arrays")
  else .ok (make_nd_array (env.get_length_row r.pointer) [r.len_ref])

/-- `Result.score_col` (lines 275-280): a column spans the query length. -/
def Result.score_col (env : NativeEnv) (r : Result) : Except PyErr NDArray :=
  if env.is_rowcol r.pointer = 0 then
    .error (.attributeError "\x27Result\x27 object has no row/col arrays")
  else .ok (make_nd_array (env.get_score_col r.pointer) [r.len_query])

/-- `Result.matches_col` (lines 282-287). -/
def Result.matches_col (env : NativeEnv) (r : Result) : Except PyErr NDArray :=
  if env.is_rowcol r.pointer = 0 then
    .error (.attributeError "\x27Result\x27 object has no row/col arrays")
  else .ok (make_nd_array (env.get_matches_col r.pointer) [r.len_query])

/-- `Result.similar_col` (lines 289-294). -/
def Result.similar_col (env : NativeEnv) (r : Result) : Except PyErr NDArray :=
  if env.is_rowcol r.pointer = 0 then
    .error (.attributeError "\x27Result\x27 object has no row/col arrays")
  else .ok (make_nd_array (env.get_similar_col r.pointer) [r.len_query])

/-- `Result.length_col` (lines 296-301). -/
def Result.length_col (env : NativeEnv) (r : Result) : Except PyErr NDArray :=
  if env.is_rowcol r.pointer = 0 then
    .error (.attributeError "\x27Result\x27 object has no row/col arrays")
  else .ok (make_nd_array (env.get_length_col r.pointer) [r.len_query])

/-- `Result.cigar` (lines 302-311): gated on `parasail_result_is_trace`;
on first access constructs the native cigar from the stored query/ref bytes
and matrix and caches it in `self._cigar`.  Returns the cigar, the updated
`Result` state, and the number of `parasail_result_get_cigar` invocations
this access performed. -/
def Result.cigarAccess (env : NativeEnv) (r : Result) :
    Except PyErr (Cigar × Result × Nat) :=
  if env.is_trace r.pointer = 0 then
    .error (.attributeError "\x27Result\x27 object has no traceback")
  else
    match r.cigar_ with
    | some c => .ok (c, r, 0)
    | none =>
      let c : Cigar := { pointer := (env.result_get_cigar r.pointer
        (bOpt r.query) r.len_query (bOpt r.ref) r.len_ref
        (r.matrix.bind Matrix.pointer)) }
      .ok (c, { r with cigar_ := some c }, 1)

/-- `n` successive accesses of the `cigar` property on one `Result`,
threading the cached state and summing the native construction count. -/
def Result.cigarIter (env : NativeEnv) : Nat → Result →
    Except PyErr (List Cigar × Result × Nat)
  | 0, r => .ok ([], r, 0)
  | n + 1, r =>
    match Result.cigarAccess env r with
    | .error err => .error err
    | .ok (c, r1, k) =>
      match Result.cigarIter env n r1 with
      | .error err => .error err
      | .ok (cs, r2, ks) => .ok (c :: cs, r2, k + ks)

/-! ### Sequences indexing (bindings_v2.py lines 874-890) -/

/-- A Python value used as a `Sequences.__getitem__` key: an `int` or a
value of some other type (carrying `type(key).__name__`). -/
inductive SKey where
  | int (i : Int)
  | other (typeName : String)
deriving DecidableEq, Repr

/-- `Sequences.__getitem__` (bindings_v2.py lines 882-890): negative keys
are shifted by the collection length; the bounds check is
`key < 0 or key > self.pointer[0].l`; a passing key builds a `Sequence`
view of `self.pointer[0].seqs[key]` (for `key = l` this reads one element
past the native array, modelled as a `none` view). -/
def Sequences.getitem (sq : Sequences) (key : SKey) : Except PyErr Sequence :=
  match key with
  | .int k0 =>
    match sq.pointer with
    | none => .error (.valueError "NULL pointer access")
    | some st =>
      let k : Int := if k0 < 0 then k0 + st.l else k0
      if k < 0 ∨ k > (st.l : Int) then
        .error (.indexError "Index out of range")
      else
        .ok { pointer := st.seqs.get? k.toNat }
  | .other tn =>
    .error (.typeError ("Index must be int, not " ++ tn))

/-! ### The dispatch layer (bindings_v2.py lines 640-641, 910 onward)

Every generated alignment wrapper has one of five shapes; the shapes are
embedded once each, indexed by the native symbol the wrapper invokes, and
each generated wrapper below is the corresponding instance.  The argument
names follow the source (`open`/`extend` become `o`/`e`). -/

/-- A non-trace sequence-pair wrapper:
`return Result(parasail_<sym>(b(s1), len(s1), b(s2), len(s2), open, extend,
matrix), len(s1), len(s2))`. -/
def seqDispatch (sym : String) (env : NativeEnv) (s1 s2 : String)
    (o e : Int) (matrix : Matrix) : Result :=
  { pointer := (env.alignSeq sym (bEnc s1) s1.length (bEnc s2) s2.length
      o e matrix.pointer),
    len_query := s1.length, len_ref := s2.length,
    query := none, ref := none, matrix := none, cigar_ := none }

/-- A trace-capable sequence-pair wrapper:
`return Result(parasail_<sym>(b(s1), len(s1), b(s2), len(s2), open, extend,
matrix), len(s1), len(s2), s1, s2, matrix)`. -/
def seqDispatchTrace (sym : String) (env : NativeEnv) (s1 s2 : String)
    (o e : Int) (matrix : Matrix) : Result :=
  { pointer := (env.alignSeq sym (bEnc s1) s1.length (bEnc s2) s2.length
      o e matrix.pointer),
    len_query := s1.length, len_ref := s2.length,
    query := some s1, ref := some s2, matrix := some matrix, cigar_ := none }

/-- The banded wrapper `nw_banded` (bindings_v2.py lines 640-641):
`return Result(parasail_nw_banded(b(s1), len(s1), b(s2), len(s2), open,
extend, k, matrix), len(s1), len(s2))`. -/
def bandedDispatch (sym : String) (env : NativeEnv) (s1 s2 : String)
    (o e k : Int) (matrix : Matrix) : Result :=
  { pointer := (env.alignBanded sym (bEnc s1) s1.length (bEnc s2) s2.length
      o e k matrix.pointer),
    len_query := s1.length, len_ref := s2.length,
    query := none, ref := none, matrix := none, cigar_ := none }

/-- A non-trace profile wrapper:
`return Result(parasail_<sym>(profile, b(s2), len(s2), open, extend),
len(profile.s1), len(s2))`.  `profile.s1` dereferences the native profile
pointer and latin-1 decodes its `s1` field; a NULL pointer or a NULL `s1`
raises before the `Result` is built (the native call, whose first argument
is evaluated first, has already happened; it is not logged here). -/
def profileDispatch (sym : String) (env : NativeEnv) (profile : Profile)
    (s2 : String) (o e : Int) : Except PyErr Result :=
  match profile.pointer with
  | none => .error (.valueError "NULL pointer access")
  | some pt =>
    match pt.s1 with
    | none => .error (.typeError "object of type \x27NoneType\x27 has no len()")
    | some s1b =>
      .ok { pointer := (env.alignProfile sym profile.pointer (bEnc s2)
              s2.length o e),
            len_query := (sDec s1b).length, len_ref := s2.length,
            query := none, ref := none, matrix := none, cigar_ := none }

/-- A trace-capable profile wrapper:
`return Result(parasail_<sym>(profile, b(s2), len(s2), open, extend),
len(profile.s1), len(s2), profile.s1, s2, profile.matrix)`.  The
`profile.matrix` property returns the stored `Matrix` object `matrix_`. -/
def profileDispatchTrace (sym : String) (env : NativeEnv) (profile : Profile)
    (s2 : String) (o e : Int) : Except PyErr Result :=
  match profile.pointer with
  | none => .error (.valueError "NULL pointer access")
  | some pt =>
    match pt.s1 with
    | none => .error (.typeError "object of type \x27NoneType\x27 has no len()")
    | some s1b =>
      .ok { pointer := (env.alignProfile sym profile.pointer (bEnc s2)
              s2.length o e),
            len_query := (sDec s1b).length, len_ref := s2.length,
            query := some (sDec s1b), ref := some s2,
            matrix := some profile.matrix_, cigar_ := none }

def nw_banded : NativeEnv → String → String → Int → Int → Int → Matrix → Result :=
  bandedDispatch "parasail_nw_banded"

/-! ### The generated wrappers (bindings_v2.py lines 915-4886): each is the
instance of its dispatch shape at the native symbol it invokes. -/

def nw : NativeEnv → String → String → Int → Int → Matrix → Result :=
  seqDispatch "parasail_nw"

def nw_table : NativeEnv → String → String → Int → Int → Matrix → Result :=
  seqDispatch "parasail_nw_table"

def nw_rowcol : NativeEnv → String → String → Int → Int → Matrix → Result :=
  seqDispatch "parasail_nw_rowcol"

def nw_trace : NativeEnv → String → String → Int → Int → Matrix → Result :=
  seqDispatchTrace "parasail_nw_trace"

def nw_stats : NativeEnv → String → String → Int → Int → Matrix → Result :=
  seqDispatch "parasail_nw_stats"

def nw_stats_table : NativeEnv → String → String → Int → Int → Matrix → Result :=
  seqDispatch "parasail_nw_stats_table"

def nw_stats_rowcol : NativeEnv → String → String → Int → Int → Matrix → Result :=
  seqDispatch "parasail_nw_stats_rowcol"

def sg : NativeEnv → String → String → Int → Int → Matrix → Result :=
  seqDispatch "parasail_sg"

def sg_table : NativeEnv → String → String → Int → Int → Matrix → Result :=
  seqDispatch "parasail_sg_table"

def sg_rowcol : NativeEnv → String → String → Int → Int → Matrix → Result :=
  seqDispatch "parasail_sg_rowcol"

def sg_trace : NativeEnv → String → String → Int → Int → Matrix → Result :=
  seqDispatchTrace "parasail_sg_trace"

def sg_stats : NativeEnv → String → String → Int → Int → Matrix → Result :=
  seqDispatch "parasail_sg_stats"

def sg_stats_table : NativeEnv → String → String → Int → Int → Matrix → Result :=
  seqDispatch "parasail_sg_stats_table"

def sg_stats_rowcol : NativeEnv → String → String → Int → Int → Matrix → Result :=
  seqDispatch "parasail_sg_stats_rowcol"

def sw : NativeEnv → String → String → Int → Int → Matrix → Result :=
  seqDispatch "parasail_sw"

def sw_table : NativeEnv → String → String → Int → Int → Matrix → Result :=
  seqDispatch "parasail_sw_table"

def sw_rowcol : NativeEnv → String → String → Int → Int → Matrix → Result :=
  seqDispatch "parasail_sw_rowcol"

def sw_trace : NativeEnv → String → String → Int → Int → Matrix → Result :=
  seqDispatchTrace "parasail_sw_trace"

def sw_stats : NativeEnv → String → String → Int → Int → Matrix → Result :=
  seqDispatch "parasail_sw_stats"

def sw_stats_table : NativeEnv → String → String → Int → Int → Matrix → Result :=
  seqDispatch "parasail_sw_stats_table"

def sw_stats_rowcol : NativeEnv → String → String → Int → Int → Matrix → Result :=
  seqDispatch "parasail_sw_stats_rowcol"

def nw_scan : NativeEnv → String → String → Int → Int → Matrix → Result :=
  seqDispatch "parasail_nw_scan"

def nw_table_scan : NativeEnv → String → String → Int → Int → Matrix → Result :=
  seqDispatch "parasail_nw_table_scan"

def nw_rowcol_scan : NativeEnv → String → String → Int → Int → Matrix → Result :=
  seqDispatch "parasail_nw_rowcol_scan"

def nw_trace_scan : NativeEnv → String → String → Int → Int → Matrix → Result :=
  seqDispatchTrace "parasail_nw_trace_scan"

def nw_stats_scan : NativeEnv → String → String → Int → Int → Matrix → Result :=
  seqDispatch "parasail_nw_stats_scan"

def nw_stats_table_scan : NativeEnv → String → String → Int → Int → Matrix → Result :=
  seqDispatch "parasail_nw_stats_table_scan"

def nw_stats_rowcol_scan : NativeEnv → String → String → Int → Int → Matrix → Result :=
  seqDispatch "parasail_nw_stats_rowcol_scan"

def sg_scan : NativeEnv → String → String → Int → Int → Matrix → Result :=
  seqDispatch "parasail_sg_scan"

def sg_table_scan : NativeEnv → String → String → Int → Int → Matrix → Result :=
  seqDispatch "parasail_sg_table_scan"

def sg_rowcol_scan : NativeEnv → String → String → Int → Int → Matrix → Result :=
  seqDispatch "parasail_sg_rowcol_scan"

def sg_trace_scan : NativeEnv → String → String → Int → Int → Matrix → Result :=
  seqDispatchTrace "parasail_sg_trace_scan"

def sg_stats_scan : NativeEnv → String → String → Int → Int → Matrix → Result :=
  seqDispatch "parasail_sg_stats_scan"

def sg_stats_table_scan : NativeEnv → String → String → Int → Int → Matrix → Result :=
  seqDispatch "parasail_sg_stats_table_scan"

def sg_stats_rowcol_scan : NativeEnv → String → String → Int → Int → Matrix → Result :=
  seqDispatch "parasail_sg_stats_rowcol_scan"

def sw_scan : NativeEnv → String → String → Int → Int → Matrix → Result :=
  seqDispatch "parasail_sw_scan"

def sw_table_scan : NativeEnv → String → String → Int → Int → Matrix → Result :=
  seqDispatch "parasail_sw_table_scan"

def sw_rowcol_scan : NativeEnv → String → String → Int → Int → Matrix → Result :=
  seqDispatch "parasail_sw_rowcol_scan"

def sw_trace_scan : NativeEnv → String → String → Int → Int → Matrix → Result :=
  seqDispatchTrace "parasail_sw_trace_scan"

def sw_stats_scan : NativeEnv → String → String → Int → Int → Matrix → Result :=
  seqDispatch "parasail_sw_stats_scan"

def sw_stats_table_scan : NativeEnv → String → String → Int → Int → Matrix → Result :=
  seqDispatch "parasail_sw_stats_table_scan"

def sw_stats_rowcol_scan : NativeEnv → String → String → Int → Int → Matrix → Result :=
  seqDispatch "parasail_sw_stats_rowcol_scan"

def nw_scan_64 : NativeEnv → String → String → Int → Int → Matrix → Result :=
  seqDispatch "parasail_nw_scan_64"

def nw_scan_32 : NativeEnv → String → String → Int → Int → Matrix → Result :=
  seqDispatch "parasail_nw_scan_32"

def nw_scan_16 : NativeEnv → String → String → Int → Int → Matrix → Result :=
  seqDispatch "parasail_nw_scan_16"

def nw_scan_8 : NativeEnv → String → String → Int → Int → Matrix → Result :=
  seqDispatch "parasail_nw_scan_8"

def nw_scan_sat : NativeEnv → String → String → Int → Int → Matrix → Result :=
  seqDispatch "parasail_nw_scan_sat"

def nw_striped_64 : NativeEnv → String → String → Int → Int → Matrix → Result :=
  seqDispatch "parasail_nw_striped_64"

def nw_striped_32 : NativeEnv → String → String → Int → Int → Matrix → Result :=
  seqDispatch "parasail_nw_striped_32"

def nw_striped_16 : NativeEnv → String → String → Int → Int → Matrix → Result :=
  seqDispatch "parasail_nw_striped_16"

def nw_striped_8 : NativeEnv → String → String → Int → Int → Matrix → Result :=
  seqDispatch "parasail_nw_striped_8"

def nw_striped_sat : NativeEnv → String → String → Int → Int → Matrix → Result :=
  seqDispatch "parasail_nw_striped_sat"

def nw_diag_64 : NativeEnv → String → String → Int → Int → Matrix → Result :=
  seqDispatch "parasail_nw_diag_64"

def nw_diag_32 : NativeEnv → String → String → Int → Int → Matrix → Result :=
  seqDispatch "parasail_nw_diag_32"

def nw_diag_16 : NativeEnv → String → String → Int → Int → Matrix → Result :=
  seqDispatch "parasail_nw_diag_16"

def nw_diag_8 : NativeEnv → String → String → Int → Int → Matrix → Result :=
  seqDispatch "parasail_nw_diag_8"

def nw_diag_sat : NativeEnv → String → String → Int → Int → Matrix → Result :=
  seqDispatch "parasail_nw_diag_sat"

def nw_table_scan_64 : NativeEnv → String → String → Int → Int → Matrix → Result :=
  seqDispatch "parasail_nw_table_scan_64"

def nw_table_scan_32 : NativeEnv → String → String → Int → Int → Matrix → Result :=
  seqDispatch "parasail_nw_table_scan_32"

def nw_table_scan_16 : NativeEnv → String → String → Int → Int → Matrix → Result :=
  seqDispatch "parasail_nw_table_scan_16"

def nw_table_scan_8 : NativeEnv → String → String → Int → Int → Matrix → Result :=
  seqDispatch "parasail_nw_table_scan_8"

def nw_table_scan_sat : NativeEnv → String → String → Int → Int → Matrix → Result :=
  seqDispatch "parasail_nw_table_scan_sat"

def nw_table_striped_64 : NativeEnv → String → String → Int → Int → Matrix → Result :=
  seqDispatch "parasail_nw_table_striped_64"

def nw_table_striped_32 : NativeEnv → String → String → Int → Int → Matrix → Result :=
  seqDispatch "parasail_nw_table_striped_32"

def nw_table_striped_16 : NativeEnv → String → String → Int → Int → Matrix → Result :=
  seqDispatch "parasail_nw_table_striped_16"

def nw_table_striped_8 : NativeEnv → String → String → Int → Int → Matrix → Result :=
  seqDispatch "parasail_nw_table_striped_8"

def nw_table_striped_sat : NativeEnv → String → String → Int → Int → Matrix → Result :=
  seqDispatch "parasail_nw_table_striped_sat"

def nw_table_diag_64 : NativeEnv → String → String → Int → Int → Matrix → Result :=
  seqDispatch "parasail_nw_table_diag_64"

def nw_table_diag_32 : NativeEnv → String → String → Int → Int → Matrix → Result :=
  seqDispatch "parasail_nw_table_diag_32"

def nw_table_diag_16 : NativeEnv → String → String → Int → Int → Matrix → Result :=
  seqDispatch "parasail_nw_table_diag_16"

def nw_table_diag_8 : NativeEnv → String → String → Int → Int → Matrix → Result :=
  seqDispatch "parasail_nw_table_diag_8"

def nw_table_diag_sat : NativeEnv → String → String → Int → Int → Matrix → Result :=
  seqDispatch "parasail_nw_table_diag_sat"

def nw_rowcol_scan_64 : NativeEnv → String → String → Int → Int → Matrix → Result :=
  seqDispatch "parasail_nw_rowcol_scan_64"

def nw_rowcol_scan_32 : NativeEnv → String → String → Int → Int → Matrix → Result :=
  seqDispatch "parasail_nw_rowcol_scan_32"

def nw_rowcol_scan_16 : NativeEnv → String → String → Int → Int → Matrix → Result :=
  seqDispatch "parasail_nw_rowcol_scan_16"

def nw_rowcol_scan_8 : NativeEnv → String → String → Int → Int → Matrix → Result :=
  seqDispatch "parasail_nw_rowcol_scan_8"

def nw_rowcol_scan_sat : NativeEnv → String → String → Int → Int → Matrix → Result :=
  seqDispatch "parasail_nw_rowcol_scan_sat"

def nw_rowcol_striped_64 : NativeEnv → String → String → Int → Int → Matrix → Result :=
  seqDispatch "parasail_nw_rowcol_striped_64"

def nw_rowcol_striped_32 : NativeEnv → String → String → Int → Int → Matrix → Result :=
  seqDispatch "parasail_nw_rowcol_striped_32"

def nw_rowcol_striped_16 : NativeEnv → String → String → Int → Int → Matrix → Result :=
  seqDispatch "parasail_nw_rowcol_striped_16"

def nw_rowcol_striped_8 : NativeEnv → String → String → Int → Int → Matrix → Result :=
  seqDispatch "parasail_nw_rowcol_striped_8"

def nw_rowcol_striped_sat : NativeEnv → String → String → Int → Int → Matrix → Result :=
  seqDispatch "parasail_nw_rowcol_striped_sat"

def nw_rowcol_diag_64 : NativeEnv → String → String → Int → Int → Matrix → Result :=
  seqDispatch "parasail_nw_rowcol_diag_64"

def nw_rowcol_diag_32 : NativeEnv → String → String → Int → Int → Matrix → Result :=
  seqDispatch "parasail_nw_rowcol_diag_32"

def nw_rowcol_diag_16 : NativeEnv → String → String → Int → Int → Matrix → Result :=
  seqDispatch "parasail_nw_rowcol_diag_16"

def nw_rowcol_diag_8 : NativeEnv → String → String → Int → Int → Matrix → Result :=
  seqDispatch "parasail_nw_rowcol_diag_8"

def nw_rowcol_diag_sat : NativeEnv → String → String → Int → Int → Matrix → Result :=
  seqDispatch "parasail_nw_rowcol_diag_sat"

def nw_trace_scan_64 : NativeEnv → String → String → Int → Int → Matrix → Result :=
  seqDispatchTrace "parasail_nw_trace_scan_64"

def nw_trace_scan_32 : NativeEnv → String → String → Int → Int → Matrix → Result :=
  seqDispatchTrace "parasail_nw_trace_scan_32"

def nw_trace_scan_16 : NativeEnv → String → String → Int → Int → Matrix → Result :=
  seqDispatchTrace "parasail_nw_trace_scan_16"

def nw_trace_scan_8 : NativeEnv → String → String → Int → Int → Matrix → Result :=
  seqDispatchTrace "parasail_nw_trace_scan_8"

def nw_trace_scan_sat : NativeEnv → String → String → Int → Int → Matrix → Result :=
  seqDispatchTrace "parasail_nw_trace_scan_sat"

def nw_trace_striped_64 : NativeEnv → String → String → Int → Int → Matrix → Result :=
  seqDispatchTrace "parasail_nw_trace_striped_64"

def nw_trace_striped_32 : NativeEnv → String → String → Int → Int → Matrix → Result :=
  seqDispatchTrace "parasail_nw_trace_striped_32"

def nw_trace_striped_16 : NativeEnv → String → String → Int → Int → Matrix → Result :=
  seqDispatchTrace "parasail_nw_trace_striped_16"

def nw_trace_striped_8 : NativeEnv → String → String → Int → Int → Matrix → Result :=
  seqDispatchTrace "parasail_nw_trace_striped_8"

def nw_trace_striped_sat : NativeEnv → String → String → Int → Int → Matrix → Result :=
  seqDispatchTrace "parasail_nw_trace_striped_sat"

def nw_trace_diag_64 : NativeEnv → String → String → Int → Int → Matrix → Result :=
  seqDispatchTrace "parasail_nw_trace_diag_64"

def nw_trace_diag_32 : NativeEnv → String → String → Int → Int → Matrix → Result :=
  seqDispatchTrace "parasail_nw_trace_diag_32"

def nw_trace_diag_16 : NativeEnv → String → String → Int → Int → Matrix → Result :=
  seqDispatchTrace "parasail_nw_trace_diag_16"

def nw_trace_diag_8 : NativeEnv → String → String → Int → Int → Matrix → Result :=
  seqDispatchTrace "parasail_nw_trace_diag_8"

def nw_trace_diag_sat : NativeEnv → String → String → Int → Int → Matrix → Result :=
  seqDispatchTrace "parasail_nw_trace_diag_sat"

def nw_stats_scan_64 : NativeEnv → String → String → Int → Int → Matrix → Result :=
  seqDispatch "parasail_nw_stats_scan_64"

def nw_stats_scan_32 : NativeEnv → String → String → Int → Int → Matrix → Result :=
  seqDispatch "parasail_nw_stats_scan_32"

def nw_stats_scan_16 : NativeEnv → String → String → Int → Int → Matrix → Result :=
  seqDispatch "parasail_nw_stats_scan_16"

def nw_stats_scan_8 : NativeEnv → String → String → Int → Int → Matrix → Result :=
  seqDispatch "parasail_nw_stats_scan_8"

def nw_stats_scan_sat : NativeEnv → String → String → Int → Int → Matrix → Result :=
  seqDispatch "parasail_nw_stats_scan_sat"

def nw_stats_striped_64 : NativeEnv → String → String → Int → Int → Matrix → Result :=
  seqDispatch "parasail_nw_stats_striped_64"

def nw_stats_striped_32 : NativeEnv → String → String → Int → Int → Matrix → Result :=
  seqDispatch "parasail_nw_stats_striped_32"

def nw_stats_striped_16 : NativeEnv → String → String → Int → Int → Matrix → Result :=
  seqDispatch "parasail_nw_stats_striped_16"

def nw_stats_striped_8 : NativeEnv → String → String → Int → Int → Matrix → Result :=
  seqDispatch "parasail_nw_stats_striped_8"

def nw_stats_striped_sat : NativeEnv → String → String → Int → Int → Matrix → Result :=
  seqDispatch "parasail_nw_stats_striped_sat"

def nw_stats_diag_64 : NativeEnv → String → String → Int → Int → Matrix → Result :=
  seqDispatch "parasail_nw_stats_diag_64"

def nw_stats_diag_32 : NativeEnv → String → String → Int → Int → Matrix → Result :=
  seqDispatch "parasail_nw_stats_diag_32"

def nw_stats_diag_16 : NativeEnv → String → String → Int → Int → Matrix → Result :=
  seqDispatch "parasail_nw_stats_diag_16"

def nw_stats_diag_8 : NativeEnv → String → String → Int → Int → Matrix → Result :=
  seqDispatch "parasail_nw_stats_diag_8"

def nw_stats_diag_sat : NativeEnv → String → String → Int → Int → Matrix → Result :=
  seqDispatch "parasail_nw_stats_diag_sat"

def nw_stats_table_scan_64 : NativeEnv → String → String → Int → Int → Matrix → Result :=
  seqDispatch "parasail_nw_stats_table_scan_64"

def nw_stats_table_scan_32 : NativeEnv → String → String → Int → Int → Matrix → Result :=
  seqDispatch "parasail_nw_stats_table_scan_32"

def nw_stats_table_scan_16 : NativeEnv → String → String → Int → Int → Matrix → Result :=
  seqDispatch "parasail_nw_stats_table_scan_16"

def nw_stats_table_scan_8 : NativeEnv → String → String → Int → Int → Matrix → Result :=
  seqDispatch "parasail_nw_stats_table_scan_8"

def nw_stats_table_scan_sat : NativeEnv → String → String → Int → Int → Matrix → Result :=
  seqDispatch "parasail_nw_stats_table_scan_sat"

def nw_stats_table_striped_64 : NativeEnv → String → String → Int → Int → Matrix → Result :=
  seqDispatch "parasail_nw_stats_table_striped_64"

def nw_stats_table_striped_32 : NativeEnv → String → String → Int → Int → Matrix → Result :=
  seqDispatch "parasail_nw_stats_table_striped_32"

def nw_stats_table_striped_16 : NativeEnv → String → String → Int → Int → Matrix → Result :=
  seqDispatch "parasail_nw_stats_table_striped_16"

def nw_stats_table_striped_8 : NativeEnv → String → String → Int → Int → Matrix → Result :=
  seqDispatch "parasail_nw_stats_table_striped_8"

def nw_stats_table_striped_sat : NativeEnv → String → String → Int → Int → Matrix → Result :=
  seqDispatch "parasail_nw_stats_table_striped_sat"

def nw_stats_table_diag_64 : NativeEnv → String → String → Int → Int → Matrix → Result :=
  seqDispatch "parasail_nw_stats_table_diag_64"

def nw_stats_table_diag_32 : NativeEnv → String → String → Int → Int → Matrix → Result :=
  seqDispatch "parasail_nw_stats_table_diag_32"

def nw_stats_table_diag_16 : NativeEnv → String → String → Int → Int → Matrix → Result :=
  seqDispatch "parasail_nw_stats_table_diag_16"

def nw_stats_table_diag_8 : NativeEnv → String → String → Int → Int → Matrix → Result :=
  seqDispatch "parasail_nw_stats_table_diag_8"

def nw_stats_table_diag_sat : NativeEnv → String → String → Int → Int → Matrix → Result :=
  seqDispatch "parasail_nw_stats_table_diag_sat"

def nw_stats_rowcol_scan_64 : NativeEnv → String → String → Int → Int → Matrix → Result :=
  seqDispatch "parasail_nw_stats_rowcol_scan_64"

def nw_stats_rowcol_scan_32 : NativeEnv → String → String → Int → Int → Matrix → Result :=
  seqDispatch "parasail_nw_stats_rowcol_scan_32"

def nw_stats_rowcol_scan_16 : NativeEnv → String → String → Int → Int → Matrix → Result :=
  seqDispatch "parasail_nw_stats_rowcol_scan_16"

def nw_stats_rowcol_scan_8 : NativeEnv → String → String → Int → Int → Matrix → Result :=
  seqDispatch "parasail_nw_stats_rowcol_scan_8"

def nw_stats_rowcol_scan_sat : NativeEnv → String → String → Int → Int → Matrix → Result :=
  seqDispatch "parasail_nw_stats_rowcol_scan_sat"

def nw_stats_rowcol_striped_64 : NativeEnv → String → String → Int → Int → Matrix → Result :=
  seqDispatch "parasail_nw_stats_rowcol_striped_64"

def nw_stats_rowcol_striped_32 : NativeEnv → String → String → Int → Int → Matrix → Result :=
  seqDispatch "parasail_nw_stats_rowcol_striped_32"

def nw_stats_rowcol_striped_16 : NativeEnv → String → String → Int → Int → Matrix → Result :=
  seqDispatch "parasail_nw_stats_rowcol_striped_16"

def nw_stats_rowcol_striped_8 : NativeEnv → String → String → Int → Int → Matrix → Result :=
  seqDispatch "parasail_nw_stats_rowcol_striped_8"

def nw_stats_rowcol_striped_sat : NativeEnv → String → String → Int → Int → Matrix → Result :=
  seqDispatch "parasail_nw_stats_rowcol_striped_sat"

def nw_stats_rowcol_diag_64 : NativeEnv → String → String → Int → Int → Matrix → Result :=
  seqDispatch "parasail_nw_stats_rowcol_diag_64"

def nw_stats_rowcol_diag_32 : NativeEnv → String → String → Int → Int → Matrix → Result :=
  seqDispatch "parasail_nw_stats_rowcol_diag_32"

def nw_stats_rowcol_diag_16 : NativeEnv → String → String → Int → Int → Matrix → Result :=
  seqDispatch "parasail_nw_stats_rowcol_diag_16"

def nw_stats_rowcol_diag_8 : NativeEnv → String → String → Int → Int → Matrix → Result :=
  seqDispatch "parasail_nw_stats_rowcol_diag_8"

def nw_stats_rowcol_diag_sat : NativeEnv → String → String → Int → Int → Matrix → Result :=
  seqDispatch "parasail_nw_stats_rowcol_diag_sat"

def sg_scan_64 : NativeEnv → String → String → Int → Int → Matrix → Result :=
  seqDispatch "parasail_sg_scan_64"

def sg_scan_32 : NativeEnv → String → String → Int → Int → Matrix → Result :=
  seqDispatch "parasail_sg_scan_32"

def sg_scan_16 : NativeEnv → String → String → Int → Int → Matrix → Result :=
  seqDispatch "parasail_sg_scan_16"

def sg_scan_8 : NativeEnv → String → String → Int → Int → Matrix → Result :=
  seqDispatch "parasail_sg_scan_8"

def sg_scan_sat : NativeEnv → String → String → Int → Int → Matrix → Result :=
  seqDispatch "parasail_sg_scan_sat"

def sg_striped_64 : NativeEnv → String → String → Int → Int → Matrix → Result :=
  seqDispatch "parasail_sg_striped_64"

def sg_striped_32 : NativeEnv → String → String → Int → Int → Matrix → Result :=
  seqDispatch "parasail_sg_striped_32"

def sg_striped_16 : NativeEnv → String → String → Int → Int → Matrix → Result :=
  seqDispatch "parasail_sg_striped_16"

def sg_striped_8 : NativeEnv → String → String → Int → Int → Matrix → Result :=
  seqDispatch "parasail_sg_striped_8"

def sg_striped_sat : NativeEnv → String → String → Int → Int → Matrix → Result :=
  seqDispatch "parasail_sg_striped_sat"

def sg_diag_64 : NativeEnv → String → String → Int → Int → Matrix → Result :=
  seqDispatch "parasail_sg_diag_64"

def sg_diag_32 : NativeEnv → String → String → Int → Int → Matrix → Result :=
  seqDispatch "parasail_sg_diag_32"

def sg_diag_16 : NativeEnv → String → String → Int → Int → Matrix → Result :=
  seqDispatch "parasail_sg_diag_16"

def sg_diag_8 : NativeEnv → String → String → Int → Int → Matrix → Result :=
  seqDispatch "parasail_sg_diag_8"

def sg_diag_sat : NativeEnv → String → String → Int → Int → Matrix → Result :=
  seqDispatch "parasail_sg_diag_sat"

def sg_table_scan_64 : NativeEnv → String → String → Int → Int → Matrix → Result :=
  seqDispatch "parasail_sg_table_scan_64"

def sg_table_scan_32 : NativeEnv → String → String → Int → Int → Matrix → Result :=
  seqDispatch "parasail_sg_table_scan_32"

def sg_table_scan_16 : NativeEnv → String → String → Int → Int → Matrix → Result :=
  seqDispatch "parasail_sg_table_scan_16"

def sg_table_scan_8 : NativeEnv → String → String → Int → Int → Matrix → Result :=
  seqDispatch "parasail_sg_table_scan_8"

def sg_table_scan_sat : NativeEnv → String → String → Int → Int → Matrix → Result :=
  seqDispatch "parasail_sg_table_scan_sat"

def sg_table_striped_64 : NativeEnv → String → String → Int → Int → Matrix → Result :=
  seqDispatch "parasail_sg_table_striped_64"

def sg_table_striped_32 : NativeEnv → String → String → Int → Int → Matrix → Result :=
  seqDispatch "parasail_sg_table_striped_32"

def sg_table_striped_16 : NativeEnv → String → String → Int → Int → Matrix → Result :=
  seqDispatch "parasail_sg_table_striped_16"

def sg_table_striped_8 : NativeEnv → String → String → Int → Int → Matrix → Result :=
  seqDispatch "parasail_sg_table_striped_8"

def sg_table_striped_sat : NativeEnv → String → String → Int → Int → Matrix → Result :=
  seqDispatch "parasail_sg_table_striped_sat"

def sg_table_diag_64 : NativeEnv → String → String → Int → Int → Matrix → Result :=
  seqDispatch "parasail_sg_table_diag_64"

def sg_table_diag_32 : NativeEnv → String → String → Int → Int → Matrix → Result :=
  seqDispatch "parasail_sg_table_diag_32"

def sg_table_diag_16 : NativeEnv → String → String → Int → Int → Matrix → Result :=
  seqDispatch "parasail_sg_table_diag_16"

def sg_table_diag_8 : NativeEnv → String → String → Int → Int → Matrix → Result :=
  seqDispatch "parasail_sg_table_diag_8"

def sg_table_diag_sat : NativeEnv → String → String → Int → Int → Matrix → Result :=
  seqDispatch "parasail_sg_table_diag_sat"

def sg_rowcol_scan_64 : NativeEnv → String → String → Int → Int → Matrix → Result :=
  seqDispatch "parasail_sg_rowcol_scan_64"

def sg_rowcol_scan_32 : NativeEnv → String → String → Int → Int → Matrix → Result :=
  seqDispatch "parasail_sg_rowcol_scan_32"

def sg_rowcol_scan_16 : NativeEnv → String → String → Int → Int → Matrix → Result :=
  seqDispatch "parasail_sg_rowcol_scan_16"

def sg_rowcol_scan_8 : NativeEnv → String → String → Int → Int → Matrix → Result :=
  seqDispatch "parasail_sg_rowcol_scan_8"

def sg_rowcol_scan_sat : NativeEnv → String → String → Int → Int → Matrix → Result :=
  seqDispatch "parasail_sg_rowcol_scan_sat"

def sg_rowcol_striped_64 : NativeEnv → String → String → Int → Int → Matrix → Result :=
  seqDispatch "parasail_sg_rowcol_striped_64"

def sg_rowcol_striped_32 : NativeEnv → String → String → Int → Int → Matrix → Result :=
  seqDispatch "parasail_sg_rowcol_striped_32"

def sg_rowcol_striped_16 : NativeEnv → String → String → Int → Int → Matrix → Result :=
  seqDispatch "parasail_sg_rowcol_striped_16"

def sg_rowcol_striped_8 : NativeEnv → String → String → Int → Int → Matrix → Result :=
  seqDispatch "parasail_sg_rowcol_striped_8"

def sg_rowcol_striped_sat : NativeEnv → String → String → Int → Int → Matrix → Result :=
  seqDispatch "parasail_sg_rowcol_striped_sat"

def sg_rowcol_diag_64 : NativeEnv → String → String → Int → Int → Matrix → Result :=
  seqDispatch "parasail_sg_rowcol_diag_64"

def sg_rowcol_diag_32 : NativeEnv → String → String → Int → Int → Matrix → Result :=
  seqDispatch "parasail_sg_rowcol_diag_32"

def sg_rowcol_diag_16 : NativeEnv → String → String → Int → Int → Matrix → Result :=
  seqDispatch "parasail_sg_rowcol_diag_16"

def sg_rowcol_diag_8 : NativeEnv → String → String → Int → Int → Matrix → Result :=
  seqDispatch "parasail_sg_rowcol_diag_8"

def sg_rowcol_diag_sat : NativeEnv → String → String → Int → Int → Matrix → Result :=
  seqDispatch "parasail_sg_rowcol_diag_sat"

def sg_trace_scan_64 : NativeEnv → String → String → Int → Int → Matrix → Result :=
  seqDispatchTrace "parasail_sg_trace_scan_64"

def sg_trace_scan_32 : NativeEnv → String → String → Int → Int → Matrix → Result :=
  seqDispatchTrace "parasail_sg_trace_scan_32"

def sg_trace_scan_16 : NativeEnv → String → String → Int → Int → Matrix → Result :=
  seqDispatchTrace "parasail_sg_trace_scan_16"

def sg_trace_scan_8 : NativeEnv → String → String → Int → Int → Matrix → Result :=
  seqDispatchTrace "parasail_sg_trace_scan_8"

def sg_trace_scan_sat : NativeEnv → String → String → Int → Int → Matrix → Result :=
  seqDispatchTrace "parasail_sg_trace_scan_sat"

def sg_trace_striped_64 : NativeEnv → String → String → Int → Int → Matrix → Result :=
  seqDispatchTrace "parasail_sg_trace_striped_64"

def sg_trace_striped_32 : NativeEnv → String → String → Int → Int → Matrix → Result :=
  seqDispatchTrace "parasail_sg_trace_striped_32"

def sg_trace_striped_16 : NativeEnv → String → String → Int → Int → Matrix → Result :=
  seqDispatchTrace "parasail_sg_trace_striped_16"

def sg_trace_striped_8 : NativeEnv → String → String → Int → Int → Matrix → Result :=
  seqDispatchTrace "parasail_sg_trace_striped_8"

def sg_trace_striped_sat : NativeEnv → String → String → Int → Int → Matrix → Result :=
  seqDispatchTrace "parasail_sg_trace_striped_sat"

def sg_trace_diag_64 : NativeEnv → String → String → Int → Int → Matrix → Result :=
  seqDispatchTrace "parasail_sg_trace_diag_64"

def sg_trace_diag_32 : NativeEnv → String → String → Int → Int → Matrix → Result :=
  seqDispatchTrace "parasail_sg_trace_diag_32"

def sg_trace_diag_16 : NativeEnv → String → String → Int → Int → Matrix → Result :=
  seqDispatchTrace "parasail_sg_trace_diag_16"

def sg_trace_diag_8 : NativeEnv → String → String → Int → Int → Matrix → Result :=
  seqDispatchTrace "parasail_sg_trace_diag_8"

def sg_trace_diag_sat : NativeEnv → String → String → Int → Int → Matrix → Result :=
  seqDispatchTrace "parasail_sg_trace_diag_sat"

def sg_stats_scan_64 : NativeEnv → String → String → Int → Int → Matrix → Result :=
  seqDispatch "parasail_sg_stats_scan_64"

def sg_stats_scan_32 : NativeEnv → String → String → Int → Int → Matrix → Result :=
  seqDispatch "parasail_sg_stats_scan_32"

def sg_stats_scan_16 : NativeEnv → String → String → Int → Int → Matrix → Result :=
  seqDispatch "parasail_sg_stats_scan_16"

def sg_stats_scan_8 : NativeEnv → String → String → Int → Int → Matrix → Result :=
  seqDispatch "parasail_sg_stats_scan_8"

def sg_stats_scan_sat : NativeEnv → String → String → Int → Int → Matrix → Result :=
  seqDispatch "parasail_sg_stats_scan_sat"

def sg_stats_striped_64 : NativeEnv → String → String → Int → Int → Matrix → Result :=
  seqDispatch "parasail_sg_stats_striped_64"

def sg_stats_striped_32 : NativeEnv → String → String → Int → Int → Matrix → Result :=
  seqDispatch "parasail_sg_stats_striped_32"

def sg_stats_striped_16 : NativeEnv → String → String → Int → Int → Matrix → Result :=
  seqDispatch "parasail_sg_stats_striped_16"

def sg_stats_striped_8 : NativeEnv → String → String → Int → Int → Matrix → Result :=
  seqDispatch "parasail_sg_stats_striped_8"

def sg_stats_striped_sat : NativeEnv → String → String → Int → Int → Matrix → Result :=
  seqDispatch "parasail_sg_stats_striped_sat"

def sg_stats_diag_64 : NativeEnv → String → String → Int → Int → Matrix → Result :=
  seqDispatch "parasail_sg_stats_diag_64"

def sg_stats_diag_32 : NativeEnv → String → String → Int → Int → Matrix → Result :=
  seqDispatch "parasail_sg_stats_diag_32"

def sg_stats_diag_16 : NativeEnv → String → String → Int → Int → Matrix → Result :=
  seqDispatch "parasail_sg_stats_diag_16"

def sg_stats_diag_8 : NativeEnv → String → String → Int → Int → Matrix → Result :=
  seqDispatch "parasail_sg_stats_diag_8"

def sg_stats_diag_sat : NativeEnv → String → String → Int → Int → Matrix → Result :=
  seqDispatch "parasail_sg_stats_diag_sat"

def sg_stats_table_scan_64 : NativeEnv → String → String → Int → Int → Matrix → Result :=
  seqDispatch "parasail_sg_stats_table_scan_64"

def sg_stats_table_scan_32 : NativeEnv → String → String → Int → Int → Matrix → Result :=
  seqDispatch "parasail_sg_stats_table_scan_32"

def sg_stats_table_scan_16 : NativeEnv → String → String → Int → Int → Matrix → Result :=
  seqDispatch "parasail_sg_stats_table_scan_16"

def sg_stats_table_scan_8 : NativeEnv → String → String → Int → Int → Matrix → Result :=
  seqDispatch "parasail_sg_stats_table_scan_8"

def sg_stats_table_scan_sat : NativeEnv → String → String → Int → Int → Matrix → Result :=
  seqDispatch "parasail_sg_stats_table_scan_sat"

def sg_stats_table_striped_64 : NativeEnv → String → String → Int → Int → Matrix → Result :=
  seqDispatch "parasail_sg_stats_table_striped_64"

def sg_stats_table_striped_32 : NativeEnv → String → String → Int → Int → Matrix → Result :=
  seqDispatch "parasail_sg_stats_table_striped_32"

def sg_stats_table_striped_16 : NativeEnv → String → String → Int → Int → Matrix → Result :=
  seqDispatch "parasail_sg_stats_table_striped_16"

def sg_stats_table_striped_8 : NativeEnv → String → String → Int → Int → Matrix → Result :=
  seqDispatch "parasail_sg_stats_table_striped_8"

def sg_stats_table_striped_sat : NativeEnv → String → String → Int → Int → Matrix → Result :=
  seqDispatch "parasail_sg_stats_table_striped_sat"

def sg_stats_table_diag_64 : NativeEnv → String → String → Int → Int → Matrix → Result :=
  seqDispatch "parasail_sg_stats_table_diag_64"

def sg_stats_table_diag_32 : NativeEnv → String → String → Int → Int → Matrix → Result :=
  seqDispatch "parasail_sg_stats_table_diag_32"

def sg_stats_table_diag_16 : NativeEnv → String → String → Int → Int → Matrix → Result :=
  seqDispatch "parasail_sg_stats_table_diag_16"

def sg_stats_table_diag_8 : NativeEnv → String → String → Int → Int → Matrix → Result :=
  seqDispatch "parasail_sg_stats_table_diag_8"

def sg_stats_table_diag_sat : NativeEnv → String → String → Int → Int → Matrix → Result :=
  seqDispatch "parasail_sg_stats_table_diag_sat"

def sg_stats_rowcol_scan_64 : NativeEnv → String → String → Int → Int → Matrix → Result :=
  seqDispatch "parasail_sg_stats_rowcol_scan_64"

def sg_stats_rowcol_scan_32 : NativeEnv → String → String → Int → Int → Matrix → Result :=
  seqDispatch "parasail_sg_stats_rowcol_scan_32"

def sg_stats_rowcol_scan_16 : NativeEnv → String → String → Int → Int → Matrix → Result :=
  seqDispatch "parasail_sg_stats_rowcol_scan_16"

def sg_stats_rowcol_scan_8 : NativeEnv → String → String → Int → Int → Matrix → Result :=
  seqDispatch "parasail_sg_stats_rowcol_scan_8"

def sg_stats_rowcol_scan_sat : NativeEnv → String → String → Int → Int → Matrix → Result :=
  seqDispatch "parasail_sg_stats_rowcol_scan_sat"

def sg_stats_rowcol_striped_64 : NativeEnv → String → String → Int → Int → Matrix → Result :=
  seqDispatch "parasail_sg_stats_rowcol_striped_64"

def sg_stats_rowcol_striped_32 : NativeEnv → String → String → Int → Int → Matrix → Result :=
  seqDispatch "parasail_sg_stats_rowcol_striped_32"

def sg_stats_rowcol_striped_16 : NativeEnv → String → String → Int → Int → Matrix → Result :=
  seqDispatch "parasail_sg_stats_rowcol_striped_16"

def sg_stats_rowcol_striped_8 : NativeEnv → String → String → Int → Int → Matrix → Result :=
  seqDispatch "parasail_sg_stats_rowcol_striped_8"

def sg_stats_rowcol_striped_sat : NativeEnv → String → String → Int → Int → Matrix → Result :=
  seqDispatch "parasail_sg_stats_rowcol_striped_sat"

def sg_stats_rowcol_diag_64 : NativeEnv → String → String → Int → Int → Matrix → Result :=
  seqDispatch "parasail_sg_stats_rowcol_diag_64"

def sg_stats_rowcol_diag_32 : NativeEnv → String → String → Int → Int → Matrix → Result :=
  seqDispatch "parasail_sg_stats_rowcol_diag_32"

def sg_stats_rowcol_diag_16 : NativeEnv → String → String → Int → Int → Matrix → Result :=
  seqDispatch "parasail_sg_stats_rowcol_diag_16"

def sg_stats_rowcol_diag_8 : NativeEnv → String → String → Int → Int → Matrix → Result :=
  seqDispatch "parasail_sg_stats_rowcol_diag_8"

def sg_stats_rowcol_diag_sat : NativeEnv → String → String → Int → Int → Matrix → Result :=
  seqDispatch "parasail_sg_stats_rowcol_diag_sat"

def sw_scan_64 : NativeEnv → String → String → Int → Int → Matrix → Result :=
  seqDispatch "parasail_sw_scan_64"

def sw_scan_32 : NativeEnv → String → String → Int → Int → Matrix → Result :=
  seqDispatch "parasail_sw_scan_32"

def sw_scan_16 : NativeEnv → String → String → Int → Int → Matrix → Result :=
  seqDispatch "parasail_sw_scan_16"

def sw_scan_8 : NativeEnv → String → String → Int → Int → Matrix → Result :=
  seqDispatch "parasail_sw_scan_8"

def sw_scan_sat : NativeEnv → String → String → Int → Int → Matrix → Result :=
  seqDispatch "parasail_sw_scan_sat"

def sw_striped_64 : NativeEnv → String → String → Int → Int → Matrix → Result :=
  seqDispatch "parasail_sw_striped_64"

def sw_striped_32 : NativeEnv → String → String → Int → Int → Matrix → Result :=
  seqDispatch "parasail_sw_striped_32"

def sw_striped_16 : NativeEnv → String → String → Int → Int → Matrix → Result :=
  seqDispatch "parasail_sw_striped_16"

def sw_striped_8 : NativeEnv → String → String → Int → Int → Matrix → Result :=
  seqDispatch "parasail_sw_striped_8"

def sw_striped_sat : NativeEnv → String → String → Int → Int → Matrix → Result :=
  seqDispatch "parasail_sw_striped_sat"

def sw_diag_64 : NativeEnv → String → String → Int → Int → Matrix → Result :=
  seqDispatch "parasail_sw_diag_64"

def sw_diag_32 : NativeEnv → String → String → Int → Int → Matrix → Result :=
  seqDispatch "parasail_sw_diag_32"

def sw_diag_16 : NativeEnv → String → String → Int → Int → Matrix → Result :=
  seqDispatch "parasail_sw_diag_16"

def sw_diag_8 : NativeEnv → String → String → Int → Int → Matrix → Result :=
  seqDispatch "parasail_sw_diag_8"

def sw_diag_sat : NativeEnv → String → String → Int → Int → Matrix → Result :=
  seqDispatch "parasail_sw_diag_sat"

def sw_table_scan_64 : NativeEnv → String → String → Int → Int → Matrix → Result :=
  seqDispatch "parasail_sw_table_scan_64"

def sw_table_scan_32 : NativeEnv → String → String → Int → Int → Matrix → Result :=
  seqDispatch "parasail_sw_table_scan_32"

def sw_table_scan_16 : NativeEnv → String → String → Int → Int → Matrix → Result :=
  seqDispatch "parasail_sw_table_scan_16"

def sw_table_scan_8 : NativeEnv → String → String → Int → Int → Matrix → Result :=
  seqDispatch "parasail_sw_table_scan_8"

def sw_table_scan_sat : NativeEnv → String → String → Int → Int → Matrix → Result :=
  seqDispatch "parasail_sw_table_scan_sat"

def sw_table_striped_64 : NativeEnv → String → String → Int → Int → Matrix → Result :=
  seqDispatch "parasail_sw_table_striped_64"

def sw_table_striped_32 : NativeEnv → String → String → Int → Int → Matrix → Result :=
  seqDispatch "parasail_sw_table_striped_32"

def sw_table_striped_16 : NativeEnv → String → String → Int → Int → Matrix → Result :=
  seqDispatch "parasail_sw_table_striped_16"

def sw_table_striped_8 : NativeEnv → String → String → Int → Int → Matrix → Result :=
  seqDispatch "parasail_sw_table_striped_8"

def sw_table_striped_sat : NativeEnv → String → String → Int → Int → Matrix → Result :=
  seqDispatch "parasail_sw_table_striped_sat"

def sw_table_diag_64 : NativeEnv → String → String → Int → Int → Matrix → Result :=
  seqDispatch "parasail_sw_table_diag_64"

def sw_table_diag_32 : NativeEnv → String → String → Int → Int → Matrix → Result :=
  seqDispatch "parasail_sw_table_diag_32"

def sw_table_diag_16 : NativeEnv → String → String → Int → Int → Matrix → Result :=
  seqDispatch "parasail_sw_table_diag_16"

def sw_table_diag_8 : NativeEnv → String → String → Int → Int → Matrix → Result :=
  seqDispatch "parasail_sw_table_diag_8"

def sw_table_diag_sat : NativeEnv → String → String → Int → Int → Matrix → Result :=
  seqDispatch "parasail_sw_table_diag_sat"

def sw_rowcol_scan_64 : NativeEnv → String → String → Int → Int → Matrix → Result :=
  seqDispatch "parasail_sw_rowcol_scan_64"

def sw_rowcol_scan_32 : NativeEnv → String → String → Int → Int → Matrix → Result :=
  seqDispatch "parasail_sw_rowcol_scan_32"

def sw_rowcol_scan_16 : NativeEnv → String → String → Int → Int → Matrix → Result :=
  seqDispatch "parasail_sw_rowcol_scan_16"

def sw_rowcol_scan_8 : NativeEnv → String → String → Int → Int → Matrix → Result :=
  seqDispatch "parasail_sw_rowcol_scan_8"

def sw_rowcol_scan_sat : NativeEnv → String → String → Int → Int → Matrix → Result :=
  seqDispatch "parasail_sw_rowcol_scan_sat"

def sw_rowcol_striped_64 : NativeEnv → String → String → Int → Int → Matrix → Result :=
  seqDispatch "parasail_sw_rowcol_striped_64"

def sw_rowcol_striped_32 : NativeEnv → String → String → Int → Int → Matrix → Result :=
  seqDispatch "parasail_sw_rowcol_striped_32"

def sw_rowcol_striped_16 : NativeEnv → String → String → Int → Int → Matrix → Result :=
  seqDispatch "parasail_sw_rowcol_striped_16"

def sw_rowcol_striped_8 : NativeEnv → String → String → Int → Int → Matrix → Result :=
  seqDispatch "parasail_sw_rowcol_striped_8"

def sw_rowcol_striped_sat : NativeEnv → String → String → Int → Int → Matrix → Result :=
  seqDispatch "parasail_sw_rowcol_striped_sat"

def sw_rowcol_diag_64 : NativeEnv → String → String → Int → Int → Matrix → Result :=
  seqDispatch "parasail_sw_rowcol_diag_64"

def sw_rowcol_diag_32 : NativeEnv → String → String → Int → Int → Matrix → Result :=
  seqDispatch "parasail_sw_rowcol_diag_32"

def sw_rowcol_diag_16 : NativeEnv → String → String → Int → Int → Matrix → Result :=
  seqDispatch "parasail_sw_rowcol_diag_16"

def sw_rowcol_diag_8 : NativeEnv → String → String → Int → Int → Matrix → Result :=
  seqDispatch "parasail_sw_rowcol_diag_8"

def sw_rowcol_diag_sat : NativeEnv → String → String → Int → Int → Matrix → Result :=
  seqDispatch "parasail_sw_rowcol_diag_sat"

def sw_trace_scan_64 : NativeEnv → String → String → Int → Int → Matrix → Result :=
  seqDispatchTrace "parasail_sw_trace_scan_64"

def sw_trace_scan_32 : NativeEnv → String → String → Int → Int → Matrix → Result :=
  seqDispatchTrace "parasail_sw_trace_scan_32"

def sw_trace_scan_16 : NativeEnv → String → String → Int → Int → Matrix → Result :=
  seqDispatchTrace "parasail_sw_trace_scan_16"

def sw_trace_scan_8 : NativeEnv → String → String → Int → Int → Matrix → Result :=
  seqDispatchTrace "parasail_sw_trace_scan_8"

def sw_trace_scan_sat : NativeEnv → String → String → Int → Int → Matrix → Result :=
  seqDispatchTrace "parasail_sw_trace_scan_sat"

def sw_trace_striped_64 : NativeEnv → String → String → Int → Int → Matrix → Result :=
  seqDispatchTrace "parasail_sw_trace_striped_64"

def sw_trace_striped_32 : NativeEnv → String → String → Int → Int → Matrix → Result :=
  seqDispatchTrace "parasail_sw_trace_striped_32"

def sw_trace_striped_16 : NativeEnv → String → String → Int → Int → Matrix → Result :=
  seqDispatchTrace "parasail_sw_trace_striped_16"

def sw_trace_striped_8 : NativeEnv → String → String → Int → Int → Matrix → Result :=
  seqDispatchTrace "parasail_sw_trace_striped_8"

def sw_trace_striped_sat : NativeEnv → String → String → Int → Int → Matrix → Result :=
  seqDispatchTrace "parasail_sw_trace_striped_sat"

def sw_trace_diag_64 : NativeEnv → String → String → Int → Int → Matrix → Result :=
  seqDispatchTrace "parasail_sw_trace_diag_64"

def sw_trace_diag_32 : NativeEnv → String → String → Int → Int → Matrix → Result :=
  seqDispatchTrace "parasail_sw_trace_diag_32"

def sw_trace_diag_16 : NativeEnv → String → String → Int → Int → Matrix → Result :=
  seqDispatchTrace "parasail_sw_trace_diag_16"

def sw_trace_diag_8 : NativeEnv → String → String → Int → Int → Matrix → Result :=
  seqDispatchTrace "parasail_sw_trace_diag_8"

def sw_trace_diag_sat : NativeEnv → String → String → Int → Int → Matrix → Result :=
  seqDispatchTrace "parasail_sw_trace_diag_sat"

def sw_stats_scan_64 : NativeEnv → String → String → Int → Int → Matrix → Result :=
  seqDispatch "parasail_sw_stats_scan_64"

def sw_stats_scan_32 : NativeEnv → String → String → Int → Int → Matrix → Result :=
  seqDispatch "parasail_sw_stats_scan_32"

def sw_stats_scan_16 : NativeEnv → String → String → Int → Int → Matrix → Result :=
  seqDispatch "parasail_sw_stats_scan_16"

def sw_stats_scan_8 : NativeEnv → String → String → Int → Int → Matrix → Result :=
  seqDispatch "parasail_sw_stats_scan_8"

def sw_stats_scan_sat : NativeEnv → String → String → Int → Int → Matrix → Result :=
  seqDispatch "parasail_sw_stats_scan_sat"

def sw_stats_striped_64 : NativeEnv → String → String → Int → Int → Matrix → Result :=
  seqDispatch "parasail_sw_stats_striped_64"

def sw_stats_striped_32 : NativeEnv → String → String → Int → Int → Matrix → Result :=
  seqDispatch "parasail_sw_stats_striped_32"

def sw_stats_striped_16 : NativeEnv → String → String → Int → Int → Matrix → Result :=
  seqDispatch "parasail_sw_stats_striped_16"

def sw_stats_striped_8 : NativeEnv → String → String → Int → Int → Matrix → Result :=
  seqDispatch "parasail_sw_stats_striped_8"

def sw_stats_striped_sat : NativeEnv → String → String → Int → Int → Matrix → Result :=
  seqDispatch "parasail_sw_stats_striped_sat"

def sw_stats_diag_64 : NativeEnv → String → String → Int → Int → Matrix → Result :=
  seqDispatch "parasail_sw_stats_diag_64"

def sw_stats_diag_32 : NativeEnv → String → String → Int → Int → Matrix → Result :=
  seqDispatch "parasail_sw_stats_diag_32"

def sw_stats_diag_16 : NativeEnv → String → String → Int → Int → Matrix → Result :=
  seqDispatch "parasail_sw_stats_diag_16"

def sw_stats_diag_8 : NativeEnv → String → String → Int → Int → Matrix → Result :=
  seqDispatch "parasail_sw_stats_diag_8"

def sw_stats_diag_sat : NativeEnv → String → String → Int → Int → Matrix → Result :=
  seqDispatch "parasail_sw_stats_diag_sat"

def sw_stats_table_scan_64 : NativeEnv → String → String → Int → Int → Matrix → Result :=
  seqDispatch "parasail_sw_stats_table_scan_64"

def sw_stats_table_scan_32 : NativeEnv → String → String → Int → Int → Matrix → Result :=
  seqDispatch "parasail_sw_stats_table_scan_32"

def sw_stats_table_scan_16 : NativeEnv → String → String → Int → Int → Matrix → Result :=
  seqDispatch "parasail_sw_stats_table_scan_16"

def sw_stats_table_scan_8 : NativeEnv → String → String → Int → Int → Matrix → Result :=
  seqDispatch "parasail_sw_stats_table_scan_8"

def sw_stats_table_scan_sat : NativeEnv → String → String → Int → Int → Matrix → Result :=
  seqDispatch "parasail_sw_stats_table_scan_sat"

def sw_stats_table_striped_64 : NativeEnv → String → String → Int → Int → Matrix → Result :=
  seqDispatch "parasail_sw_stats_table_striped_64"

def sw_stats_table_striped_32 : NativeEnv → String → String → Int → Int → Matrix → Result :=
  seqDispatch "parasail_sw_stats_table_striped_32"

def sw_stats_table_striped_16 : NativeEnv → String → String → Int → Int → Matrix → Result :=
  seqDispatch "parasail_sw_stats_table_striped_16"

def sw_stats_table_striped_8 : NativeEnv → String → String → Int → Int → Matrix → Result :=
  seqDispatch "parasail_sw_stats_table_striped_8"

def sw_stats_table_striped_sat : NativeEnv → String → String → Int → Int → Matrix → Result :=
  seqDispatch "parasail_sw_stats_table_striped_sat"

def sw_stats_table_diag_64 : NativeEnv → String → String → Int → Int → Matrix → Result :=
  seqDispatch "parasail_sw_stats_table_diag_64"

def sw_stats_table_diag_32 : NativeEnv → String → String → Int → Int → Matrix → Result :=
  seqDispatch "parasail_sw_stats_table_diag_32"

def sw_stats_table_diag_16 : NativeEnv → String → String → Int → Int → Matrix → Result :=
  seqDispatch "parasail_sw_stats_table_diag_16"

def sw_stats_table_diag_8 : NativeEnv → String → String → Int → Int → Matrix → Result :=
  seqDispatch "parasail_sw_stats_table_diag_8"

def sw_stats_table_diag_sat : NativeEnv → String → String → Int → Int → Matrix → Result :=
  seqDispatch "parasail_sw_stats_table_diag_sat"

def sw_stats_rowcol_scan_64 : NativeEnv → String → String → Int → Int → Matrix → Result :=
  seqDispatch "parasail_sw_stats_rowcol_scan_64"

def sw_stats_rowcol_scan_32 : NativeEnv → String → String → Int → Int → Matrix → Result :=
  seqDispatch "parasail_sw_stats_rowcol_scan_32"

def sw_stats_rowcol_scan_16 : NativeEnv → String → String → Int → Int → Matrix → Result :=
  seqDispatch "parasail_sw_stats_rowcol_scan_16"

def sw_stats_rowcol_scan_8 : NativeEnv → String → String → Int → Int → Matrix → Result :=
  seqDispatch "parasail_sw_stats_rowcol_scan_8"

def sw_stats_rowcol_scan_sat : NativeEnv → String → String → Int → Int → Matrix → Result :=
  seqDispatch "parasail_sw_stats_rowcol_scan_sat"

def sw_stats_rowcol_striped_64 : NativeEnv → String → String → Int → Int → Matrix → Result :=
  seqDispatch "parasail_sw_stats_rowcol_striped_64"

def sw_stats_rowcol_striped_32 : NativeEnv → String → String → Int → Int → Matrix → Result :=
  seqDispatch "parasail_sw_stats_rowcol_striped_32"

def sw_stats_rowcol_striped_16 : NativeEnv → String → String → Int → Int → Matrix → Result :=
  seqDispatch "parasail_sw_stats_rowcol_striped_16"

def sw_stats_rowcol_striped_8 : NativeEnv → String → String → Int → Int → Matrix → Result :=
  seqDispatch "parasail_sw_stats_rowcol_striped_8"

def sw_stats_rowcol_striped_sat : NativeEnv → String → String → Int → Int → Matrix → Result :=
  seqDispatch "parasail_sw_stats_rowcol_striped_sat"

def sw_stats_rowcol_diag_64 : NativeEnv → String → String → Int → Int → Matrix → Result :=
  seqDispatch "parasail_sw_stats_rowcol_diag_64"

def sw_stats_rowcol_diag_32 : NativeEnv → String → String → Int → Int → Matrix → Result :=
  seqDispatch "parasail_sw_stats_rowcol_diag_32"

def sw_stats_rowcol_diag_16 : NativeEnv → String → String → Int → Int → Matrix → Result :=
  seqDispatch "parasail_sw_stats_rowcol_diag_16"

def sw_stats_rowcol_diag_8 : NativeEnv → String → String → Int → Int → Matrix → Result :=
  seqDispatch "parasail_sw_stats_rowcol_diag_8"

def sw_stats_rowcol_diag_sat : NativeEnv → String → String → Int → Int → Matrix → Result :=
  seqDispatch "parasail_sw_stats_rowcol_diag_sat"

def nw_scan_profile_64 : NativeEnv → Profile → String → Int → Int → Except PyErr Result :=
  profileDispatch "parasail_nw_scan_profile_64"

def nw_scan_profile_32 : NativeEnv → Profile → String → Int → Int → Except PyErr Result :=
  profileDispatch "parasail_nw_scan_profile_32"

def nw_scan_profile_16 : NativeEnv → Profile → String → Int → Int → Except PyErr Result :=
  profileDispatch "parasail_nw_scan_profile_16"

def nw_scan_profile_8 : NativeEnv → Profile → String → Int → Int → Except PyErr Result :=
  profileDispatch "parasail_nw_scan_profile_8"

def nw_scan_profile_sat : NativeEnv → Profile → String → Int → Int → Except PyErr Result :=
  profileDispatch "parasail_nw_scan_profile_sat"

def nw_striped_profile_64 : NativeEnv → Profile → String → Int → Int → Except PyErr Result :=
  profileDispatch "parasail_nw_striped_profile_64"

def nw_striped_profile_32 : NativeEnv → Profile → String → Int → Int → Except PyErr Result :=
  profileDispatch "parasail_nw_striped_profile_32"

def nw_striped_profile_16 : NativeEnv → Profile → String → Int → Int → Except PyErr Result :=
  profileDispatch "parasail_nw_striped_profile_16"

def nw_striped_profile_8 : NativeEnv → Profile → String → Int → Int → Except PyErr Result :=
  profileDispatch "parasail_nw_striped_profile_8"

def nw_striped_profile_sat : NativeEnv → Profile → String → Int → Int → Except PyErr Result :=
  profileDispatch "parasail_nw_striped_profile_sat"

def nw_table_scan_profile_64 : NativeEnv → Profile → String → Int → Int → Except PyErr Result :=
  profileDispatch "parasail_nw_table_scan_profile_64"

def nw_table_scan_profile_32 : NativeEnv → Profile → String → Int → Int → Except PyErr Result :=
  profileDispatch "parasail_nw_table_scan_profile_32"

def nw_table_scan_profile_16 : NativeEnv → Profile → String → Int → Int → Except PyErr Result :=
  profileDispatch "parasail_nw_table_scan_profile_16"

def nw_table_scan_profile_8 : NativeEnv → Profile → String → Int → Int → Except PyErr Result :=
  profileDispatch "parasail_nw_table_scan_profile_8"

def nw_table_scan_profile_sat : NativeEnv → Profile → String → Int → Int → Except PyErr Result :=
  profileDispatch "parasail_nw_table_scan_profile_sat"

def nw_table_striped_profile_64 : NativeEnv → Profile → String → Int → Int → Except PyErr Result :=
  profileDispatch "parasail_nw_table_striped_profile_64"

def nw_table_striped_profile_32 : NativeEnv → Profile → String → Int → Int → Except PyErr Result :=
  profileDispatch "parasail_nw_table_striped_profile_32"

def nw_table_striped_profile_16 : NativeEnv → Profile → String → Int → Int → Except PyErr Result :=
  profileDispatch "parasail_nw_table_striped_profile_16"

def nw_table_striped_profile_8 : NativeEnv → Profile → String → Int → Int → Except PyErr Result :=
  profileDispatch "parasail_nw_table_striped_profile_8"

def nw_table_striped_profile_sat : NativeEnv → Profile → String → Int → Int → Except PyErr Result :=
  profileDispatch "parasail_nw_table_striped_profile_sat"

def nw_rowcol_scan_profile_64 : NativeEnv → Profile → String → Int → Int → Except PyErr Result :=
  profileDispatch "parasail_nw_rowcol_scan_profile_64"

def nw_rowcol_scan_profile_32 : NativeEnv → Profile → String → Int → Int → Except PyErr Result :=
  profileDispatch "parasail_nw_rowcol_scan_profile_32"

def nw_rowcol_scan_profile_16 : NativeEnv → Profile → String → Int → Int → Except PyErr Result :=
  profileDispatch "parasail_nw_rowcol_scan_profile_16"

def nw_rowcol_scan_profile_8 : NativeEnv → Profile → String → Int → Int → Except PyErr Result :=
  profileDispatch "parasail_nw_rowcol_scan_profile_8"

def nw_rowcol_scan_profile_sat : NativeEnv → Profile → String → Int → Int → Except PyErr Result :=
  profileDispatch "parasail_nw_rowcol_scan_profile_sat"

def nw_rowcol_striped_profile_64 : NativeEnv → Profile → String → Int → Int → Except PyErr Result :=
  profileDispatch "parasail_nw_rowcol_striped_profile_64"

def nw_rowcol_striped_profile_32 : NativeEnv → Profile → String → Int → Int → Except PyErr Result :=
  profileDispatch "parasail_nw_rowcol_striped_profile_32"

def nw_rowcol_striped_profile_16 : NativeEnv → Profile → String → Int → Int → Except PyErr Result :=
  profileDispatch "parasail_nw_rowcol_striped_profile_16"

def nw_rowcol_striped_profile_8 : NativeEnv → Profile → String → Int → Int → Except PyErr Result :=
  profileDispatch "parasail_nw_rowcol_striped_profile_8"

def nw_rowcol_striped_profile_sat : NativeEnv → Profile → String → Int → Int → Except PyErr Result :=
  profileDispatch "parasail_nw_rowcol_striped_profile_sat"

def nw_trace_scan_profile_64 : NativeEnv → Profile → String → Int → Int → Except PyErr Result :=
  profileDispatchTrace "parasail_nw_trace_scan_profile_64"

def nw_trace_scan_profile_32 : NativeEnv → Profile → String → Int → Int → Except PyErr Result :=
  profileDispatchTrace "parasail_nw_trace_scan_profile_32"

def nw_trace_scan_profile_16 : NativeEnv → Profile → String → Int → Int → Except PyErr Result :=
  profileDispatchTrace "parasail_nw_trace_scan_profile_16"

def nw_trace_scan_profile_8 : NativeEnv → Profile → String → Int → Int → Except PyErr Result :=
  profileDispatchTrace "parasail_nw_trace_scan_profile_8"

def nw_trace_scan_profile_sat : NativeEnv → Profile → String → Int → Int → Except PyErr Result :=
  profileDispatchTrace "parasail_nw_trace_scan_profile_sat"

def nw_trace_striped_profile_64 : NativeEnv → Profile → String → Int → Int → Except PyErr Result :=
  profileDispatchTrace "parasail_nw_trace_striped_profile_64"

def nw_trace_striped_profile_32 : NativeEnv → Profile → String → Int → Int → Except PyErr Result :=
  profileDispatchTrace "parasail_nw_trace_striped_profile_32"

def nw_trace_striped_profile_16 : NativeEnv → Profile → String → Int → Int → Except PyErr Result :=
  profileDispatchTrace "parasail_nw_trace_striped_profile_16"

def nw_trace_striped_profile_8 : NativeEnv → Profile → String → Int → Int → Except PyErr Result :=
  profileDispatchTrace "parasail_nw_trace_striped_profile_8"

def nw_trace_striped_profile_sat : NativeEnv → Profile → String → Int → Int → Except PyErr Result :=
  profileDispatchTrace "parasail_nw_trace_striped_profile_sat"

def nw_stats_scan_profile_64 : NativeEnv → Profile → String → Int → Int → Except PyErr Result :=
  profileDispatch "parasail_nw_stats_scan_profile_64"

def nw_stats_scan_profile_32 : NativeEnv → Profile → String → Int → Int → Except PyErr Result :=
  profileDispatch "parasail_nw_stats_scan_profile_32"

def nw_stats_scan_profile_16 : NativeEnv → Profile → String → Int → Int → Except PyErr Result :=
  profileDispatch "parasail_nw_stats_scan_profile_16"

def nw_stats_scan_profile_8 : NativeEnv → Profile → String → Int → Int → Except PyErr Result :=
  profileDispatch "parasail_nw_stats_scan_profile_8"

def nw_stats_scan_profile_sat : NativeEnv → Profile → String → Int → Int → Except PyErr Result :=
  profileDispatch "parasail_nw_stats_scan_profile_sat"

def nw_stats_striped_profile_64 : NativeEnv → Profile → String → Int → Int → Except PyErr Result :=
  profileDispatch "parasail_nw_stats_striped_profile_64"

def nw_stats_striped_profile_32 : NativeEnv → Profile → String → Int → Int → Except PyErr Result :=
  profileDispatch "parasail_nw_stats_striped_profile_32"

def nw_stats_striped_profile_16 : NativeEnv → Profile → String → Int → Int → Except PyErr Result :=
  profileDispatch "parasail_nw_stats_striped_profile_16"

def nw_stats_striped_profile_8 : NativeEnv → Profile → String → Int → Int → Except PyErr Result :=
  profileDispatch "parasail_nw_stats_striped_profile_8"

def nw_stats_striped_profile_sat : NativeEnv → Profile → String → Int → Int → Except PyErr Result :=
  profileDispatch "parasail_nw_stats_striped_profile_sat"

def nw_stats_table_scan_profile_64 : NativeEnv → Profile → String → Int → Int → Except PyErr Result :=
  profileDispatch "parasail_nw_stats_table_scan_profile_64"

def nw_stats_table_scan_profile_32 : NativeEnv → Profile → String → Int → Int → Except PyErr Result :=
  profileDispatch "parasail_nw_stats_table_scan_profile_32"

def nw_stats_table_scan_profile_16 : NativeEnv → Profile → String → Int → Int → Except PyErr Result :=
  profileDispatch "parasail_nw_stats_table_scan_profile_16"

def nw_stats_table_scan_profile_8 : NativeEnv → Profile → String → Int → Int → Except PyErr Result :=
  profileDispatch "parasail_nw_stats_table_scan_profile_8"

def nw_stats_table_scan_profile_sat : NativeEnv → Profile → String → Int → Int → Except PyErr Result :=
  profileDispatch "parasail_nw_stats_table_scan_profile_sat"

def nw_stats_table_striped_profile_64 : NativeEnv → Profile → String → Int → Int → Except PyErr Result :=
  profileDispatch "parasail_nw_stats_table_striped_profile_64"

def nw_stats_table_striped_profile_32 : NativeEnv → Profile → String → Int → Int → Except PyErr Result :=
  profileDispatch "parasail_nw_stats_table_striped_profile_32"

def nw_stats_table_striped_profile_16 : NativeEnv → Profile → String → Int → Int → Except PyErr Result :=
  profileDispatch "parasail_nw_stats_table_striped_profile_16"

def nw_stats_table_striped_profile_8 : NativeEnv → Profile → String → Int → Int → Except PyErr Result :=
  profileDispatch "parasail_nw_stats_table_striped_profile_8"

def nw_stats_table_striped_profile_sat : NativeEnv → Profile → String → Int → Int → Except PyErr Result :=
  profileDispatch "parasail_nw_stats_table_striped_profile_sat"

def nw_stats_rowcol_scan_profile_64 : NativeEnv → Profile → String → Int → Int → Except PyErr Result :=
  profileDispatch "parasail_nw_stats_rowcol_scan_profile_64"

def nw_stats_rowcol_scan_profile_32 : NativeEnv → Profile → String → Int → Int → Except PyErr Result :=
  profileDispatch "parasail_nw_stats_rowcol_scan_profile_32"

def nw_stats_rowcol_scan_profile_16 : NativeEnv → Profile → String → Int → Int → Except PyErr Result :=
  profileDispatch "parasail_nw_stats_rowcol_scan_profile_16"

def nw_stats_rowcol_scan_profile_8 : NativeEnv → Profile → String → Int → Int → Except PyErr Result :=
  profileDispatch "parasail_nw_stats_rowcol_scan_profile_8"

def nw_stats_rowcol_scan_profile_sat : NativeEnv → Profile → String → Int → Int → Except PyErr Result :=
  profileDispatch "parasail_nw_stats_rowcol_scan_profile_sat"

def nw_stats_rowcol_striped_profile_64 : NativeEnv → Profile → String → Int → Int → Except PyErr Result :=
  profileDispatch "parasail_nw_stats_rowcol_striped_profile_64"

def nw_stats_rowcol_striped_profile_32 : NativeEnv → Profile → String → Int → Int → Except PyErr Result :=
  profileDispatch "parasail_nw_stats_rowcol_striped_profile_32"

def nw_stats_rowcol_striped_profile_16 : NativeEnv → Profile → String → Int → Int → Except PyErr Result :=
  profileDispatch "parasail_nw_stats_rowcol_striped_profile_16"

def nw_stats_rowcol_striped_profile_8 : NativeEnv → Profile → String → Int → Int → Except PyErr Result :=
  profileDispatch "parasail_nw_stats_rowcol_striped_profile_8"

def nw_stats_rowcol_striped_profile_sat : NativeEnv → Profile → String → Int → Int → Except PyErr Result :=
  profileDispatch "parasail_nw_stats_rowcol_striped_profile_sat"

def sg_scan_profile_64 : NativeEnv → Profile → String → Int → Int → Except PyErr Result :=
  profileDispatch "parasail_sg_scan_profile_64"

def sg_scan_profile_32 : NativeEnv → Profile → String → Int → Int → Except PyErr Result :=
  profileDispatch "parasail_sg_scan_profile_32"

def sg_scan_profile_16 : NativeEnv → Profile → String → Int → Int → Except PyErr Result :=
  profileDispatch "parasail_sg_scan_profile_16"

def sg_scan_profile_8 : NativeEnv → Profile → String → Int → Int → Except PyErr Result :=
  profileDispatch "parasail_sg_scan_profile_8"

def sg_scan_profile_sat : NativeEnv → Profile → String → Int → Int → Except PyErr Result :=
  profileDispatch "parasail_sg_scan_profile_sat"

def sg_striped_profile_64 : NativeEnv → Profile → String → Int → Int → Except PyErr Result :=
  profileDispatch "parasail_sg_striped_profile_64"

def sg_striped_profile_32 : NativeEnv → Profile → String → Int → Int → Except PyErr Result :=
  profileDispatch "parasail_sg_striped_profile_32"

def sg_striped_profile_16 : NativeEnv → Profile → String → Int → Int → Except PyErr Result :=
  profileDispatch "parasail_sg_striped_profile_16"

def sg_striped_profile_8 : NativeEnv → Profile → String → Int → Int → Except PyErr Result :=
  profileDispatch "parasail_sg_striped_profile_8"

def sg_striped_profile_sat : NativeEnv → Profile → String → Int → Int → Except PyErr Result :=
  profileDispatch "parasail_sg_striped_profile_sat"

def sg_table_scan_profile_64 : NativeEnv → Profile → String → Int → Int → Except PyErr Result :=
  profileDispatch "parasail_sg_table_scan_profile_64"

def sg_table_scan_profile_32 : NativeEnv → Profile → String → Int → Int → Except PyErr Result :=
  profileDispatch "parasail_sg_table_scan_profile_32"

def sg_table_scan_profile_16 : NativeEnv → Profile → String → Int → Int → Except PyErr Result :=
  profileDispatch "parasail_sg_table_scan_profile_16"

def sg_table_scan_profile_8 : NativeEnv → Profile → String → Int → Int → Except PyErr Result :=
  profileDispatch "parasail_sg_table_scan_profile_8"

def sg_table_scan_profile_sat : NativeEnv → Profile → String → Int → Int → Except PyErr Result :=
  profileDispatch "parasail_sg_table_scan_profile_sat"

def sg_table_striped_profile_64 : NativeEnv → Profile → String → Int → Int → Except PyErr Result :=
  profileDispatch "parasail_sg_table_striped_profile_64"

def sg_table_striped_profile_32 : NativeEnv → Profile → String → Int → Int → Except PyErr Result :=
  profileDispatch "parasail_sg_table_striped_profile_32"

def sg_table_striped_profile_16 : NativeEnv → Profile → String → Int → Int → Except PyErr Result :=
  profileDispatch "parasail_sg_table_striped_profile_16"

def sg_table_striped_profile_8 : NativeEnv → Profile → String → Int → Int → Except PyErr Result :=
  profileDispatch "parasail_sg_table_striped_profile_8"

def sg_table_striped_profile_sat : NativeEnv → Profile → String → Int → Int → Except PyErr Result :=
  profileDispatch "parasail_sg_table_striped_profile_sat"

def sg_rowcol_scan_profile_64 : NativeEnv → Profile → String → Int → Int → Except PyErr Result :=
  profileDispatch "parasail_sg_rowcol_scan_profile_64"

def sg_rowcol_scan_profile_32 : NativeEnv → Profile → String → Int → Int → Except PyErr Result :=
  profileDispatch "parasail_sg_rowcol_scan_profile_32"

def sg_rowcol_scan_profile_16 : NativeEnv → Profile → String → Int → Int → Except PyErr Result :=
  profileDispatch "parasail_sg_rowcol_scan_profile_16"

def sg_rowcol_scan_profile_8 : NativeEnv → Profile → String → Int → Int → Except PyErr Result :=
  profileDispatch "parasail_sg_rowcol_scan_profile_8"

def sg_rowcol_scan_profile_sat : NativeEnv → Profile → String → Int → Int → Except PyErr Result :=
  profileDispatch "parasail_sg_rowcol_scan_profile_sat"

def sg_rowcol_striped_profile_64 : NativeEnv → Profile → String → Int → Int → Except PyErr Result :=
  profileDispatch "parasail_sg_rowcol_striped_profile_64"

def sg_rowcol_striped_profile_32 : NativeEnv → Profile → String → Int → Int → Except PyErr Result :=
  profileDispatch "parasail_sg_rowcol_striped_profile_32"

def sg_rowcol_striped_profile_16 : NativeEnv → Profile → String → Int → Int → Except PyErr Result :=
  profileDispatch "parasail_sg_rowcol_striped_profile_16"

def sg_rowcol_striped_profile_8 : NativeEnv → Profile → String → Int → Int → Except PyErr Result :=
  profileDispatch "parasail_sg_rowcol_striped_profile_8"

def sg_rowcol_striped_profile_sat : NativeEnv → Profile → String → Int → Int → Except PyErr Result :=
  profileDispatch "parasail_sg_rowcol_striped_profile_sat"

def sg_trace_scan_profile_64 : NativeEnv → Profile → String → Int → Int → Except PyErr Result :=
  profileDispatchTrace "parasail_sg_trace_scan_profile_64"

def sg_trace_scan_profile_32 : NativeEnv → Profile → String → Int → Int → Except PyErr Result :=
  profileDispatchTrace "parasail_sg_trace_scan_profile_32"

def sg_trace_scan_profile_16 : NativeEnv → Profile → String → Int → Int → Except PyErr Result :=
  profileDispatchTrace "parasail_sg_trace_scan_profile_16"

def sg_trace_scan_profile_8 : NativeEnv → Profile → String → Int → Int → Except PyErr Result :=
  profileDispatchTrace "parasail_sg_trace_scan_profile_8"

def sg_trace_scan_profile_sat : NativeEnv → Profile → String → Int → Int → Except PyErr Result :=
  profileDispatchTrace "parasail_sg_trace_scan_profile_sat"

def sg_trace_striped_profile_64 : NativeEnv → Profile → String → Int → Int → Except PyErr Result :=
  profileDispatchTrace "parasail_sg_trace_striped_profile_64"

def sg_trace_striped_profile_32 : NativeEnv → Profile → String → Int → Int → Except PyErr Result :=
  profileDispatchTrace "parasail_sg_trace_striped_profile_32"

def sg_trace_striped_profile_16 : NativeEnv → Profile → String → Int → Int → Except PyErr Result :=
  profileDispatchTrace "parasail_sg_trace_striped_profile_16"

def sg_trace_striped_profile_8 : NativeEnv → Profile → String → Int → Int → Except PyErr Result :=
  profileDispatchTrace "parasail_sg_trace_striped_profile_8"

def sg_trace_striped_profile_sat : NativeEnv → Profile → String → Int → Int → Except PyErr Result :=
  profileDispatchTrace "parasail_sg_trace_striped_profile_sat"

def sg_stats_scan_profile_64 : NativeEnv → Profile → String → Int → Int → Except PyErr Result :=
  profileDispatch "parasail_sg_stats_scan_profile_64"

def sg_stats_scan_profile_32 : NativeEnv → Profile → String → Int → Int → Except PyErr Result :=
  profileDispatch "parasail_sg_stats_scan_profile_32"

def sg_stats_scan_profile_16 : NativeEnv → Profile → String → Int → Int → Except PyErr Result :=
  profileDispatch "parasail_sg_stats_scan_profile_16"

def sg_stats_scan_profile_8 : NativeEnv → Profile → String → Int → Int → Except PyErr Result :=
  profileDispatch "parasail_sg_stats_scan_profile_8"

def sg_stats_scan_profile_sat : NativeEnv → Profile → String → Int → Int → Except PyErr Result :=
  profileDispatch "parasail_sg_stats_scan_profile_sat"

def sg_stats_striped_profile_64 : NativeEnv → Profile → String → Int → Int → Except PyErr Result :=
  profileDispatch "parasail_sg_stats_striped_profile_64"

def sg_stats_striped_profile_32 : NativeEnv → Profile → String → Int → Int → Except PyErr Result :=
  profileDispatch "parasail_sg_stats_striped_profile_32"

def sg_stats_striped_profile_16 : NativeEnv → Profile → String → Int → Int → Except PyErr Result :=
  profileDispatch "parasail_sg_stats_striped_profile_16"

def sg_stats_striped_profile_8 : NativeEnv → Profile → String → Int → Int → Except PyErr Result :=
  profileDispatch "parasail_sg_stats_striped_profile_8"

def sg_stats_striped_profile_sat : NativeEnv → Profile → String → Int → Int → Except PyErr Result :=
  profileDispatch "parasail_sg_stats_striped_profile_sat"

def sg_stats_table_scan_profile_64 : NativeEnv → Profile → String → Int → Int → Except PyErr Result :=
  profileDispatch "parasail_sg_stats_table_scan_profile_64"

def sg_stats_table_scan_profile_32 : NativeEnv → Profile → String → Int → Int → Except PyErr Result :=
  profileDispatch "parasail_sg_stats_table_scan_profile_32"

def sg_stats_table_scan_profile_16 : NativeEnv → Profile → String → Int → Int → Except PyErr Result :=
  profileDispatch "parasail_sg_stats_table_scan_profile_16"

def sg_stats_table_scan_profile_8 : NativeEnv → Profile → String → Int → Int → Except PyErr Result :=
  profileDispatch "parasail_sg_stats_table_scan_profile_8"

def sg_stats_table_scan_profile_sat : NativeEnv → Profile → String → Int → Int → Except PyErr Result :=
  profileDispatch "parasail_sg_stats_table_scan_profile_sat"

def sg_stats_table_striped_profile_64 : NativeEnv → Profile → String → Int → Int → Except PyErr Result :=
  profileDispatch "parasail_sg_stats_table_striped_profile_64"

def sg_stats_table_striped_profile_32 : NativeEnv → Profile → String → Int → Int → Except PyErr Result :=
  profileDispatch "parasail_sg_stats_table_striped_profile_32"

def sg_stats_table_striped_profile_16 : NativeEnv → Profile → String → Int → Int → Except PyErr Result :=
  profileDispatch "parasail_sg_stats_table_striped_profile_16"

def sg_stats_table_striped_profile_8 : NativeEnv → Profile → String → Int → Int → Except PyErr Result :=
  profileDispatch "parasail_sg_stats_table_striped_profile_8"

def sg_stats_table_striped_profile_sat : NativeEnv → Profile → String → Int → Int → Except PyErr Result :=
  profileDispatch "parasail_sg_stats_table_striped_profile_sat"

def sg_stats_rowcol_scan_profile_64 : NativeEnv → Profile → String → Int → Int → Except PyErr Result :=
  profileDispatch "parasail_sg_stats_rowcol_scan_profile_64"

def sg_stats_rowcol_scan_profile_32 : NativeEnv → Profile → String → Int → Int → Except PyErr Result :=
  profileDispatch "parasail_sg_stats_rowcol_scan_profile_32"

def sg_stats_rowcol_scan_profile_16 : NativeEnv → Profile → String → Int → Int → Except PyErr Result :=
  profileDispatch "parasail_sg_stats_rowcol_scan_profile_16"

def sg_stats_rowcol_scan_profile_8 : NativeEnv → Profile → String → Int → Int → Except PyErr Result :=
  profileDispatch "parasail_sg_stats_rowcol_scan_profile_8"

def sg_stats_rowcol_scan_profile_sat : NativeEnv → Profile → String → Int → Int → Except PyErr Result :=
  profileDispatch "parasail_sg_stats_rowcol_scan_profile_sat"

def sg_stats_rowcol_striped_profile_64 : NativeEnv → Profile → String → Int → Int → Except PyErr Result :=
  profileDispatch "parasail_sg_stats_rowcol_striped_profile_64"

def sg_stats_rowcol_striped_profile_32 : NativeEnv → Profile → String → Int → Int → Except PyErr Result :=
  profileDispatch "parasail_sg_stats_rowcol_striped_profile_32"

def sg_stats_rowcol_striped_profile_16 : NativeEnv → Profile → String → Int → Int → Except PyErr Result :=
  profileDispatch "parasail_sg_stats_rowcol_striped_profile_16"

def sg_stats_rowcol_striped_profile_8 : NativeEnv → Profile → String → Int → Int → Except PyErr Result :=
  profileDispatch "parasail_sg_stats_rowcol_striped_profile_8"

def sg_stats_rowcol_striped_profile_sat : NativeEnv → Profile → String → Int → Int → Except PyErr Result :=
  profileDispatch "parasail_sg_stats_rowcol_striped_profile_sat"

def sw_scan_profile_64 : NativeEnv → Profile → String → Int → Int → Except PyErr Result :=
  profileDispatch "parasail_sw_scan_profile_64"

def sw_scan_profile_32 : NativeEnv → Profile → String → Int → Int → Except PyErr Result :=
  profileDispatch "parasail_sw_scan_profile_32"

def sw_scan_profile_16 : NativeEnv → Profile → String → Int → Int → Except PyErr Result :=
  profileDispatch "parasail_sw_scan_profile_16"

def sw_scan_profile_8 : NativeEnv → Profile → String → Int → Int → Except PyErr Result :=
  profileDispatch "parasail_sw_scan_profile_8"

def sw_scan_profile_sat : NativeEnv → Profile → String → Int → Int → Except PyErr Result :=
  profileDispatch "parasail_sw_scan_profile_sat"

def sw_striped_profile_64 : NativeEnv → Profile → String → Int → Int → Except PyErr Result :=
  profileDispatch "parasail_sw_striped_profile_64"

def sw_striped_profile_32 : NativeEnv → Profile → String → Int → Int → Except PyErr Result :=
  profileDispatch "parasail_sw_striped_profile_32"

def sw_striped_profile_16 : NativeEnv → Profile → String → Int → Int → Except PyErr Result :=
  profileDispatch "parasail_sw_striped_profile_16"

def sw_striped_profile_8 : NativeEnv → Profile → String → Int → Int → Except PyErr Result :=
  profileDispatch "parasail_sw_striped_profile_8"

def sw_striped_profile_sat : NativeEnv → Profile → String → Int → Int → Except PyErr Result :=
  profileDispatch "parasail_sw_striped_profile_sat"

def sw_table_scan_profile_64 : NativeEnv → Profile → String → Int → Int → Except PyErr Result :=
  profileDispatch "parasail_sw_table_scan_profile_64"

def sw_table_scan_profile_32 : NativeEnv → Profile → String → Int → Int → Except PyErr Result :=
  profileDispatch "parasail_sw_table_scan_profile_32"

def sw_table_scan_profile_16 : NativeEnv → Profile → String → Int → Int → Except PyErr Result :=
  profileDispatch "parasail_sw_table_scan_profile_16"

def sw_table_scan_profile_8 : NativeEnv → Profile → String → Int → Int → Except PyErr Result :=
  profileDispatch "parasail_sw_table_scan_profile_8"

def sw_table_scan_profile_sat : NativeEnv → Profile → String → Int → Int → Except PyErr Result :=
  profileDispatch "parasail_sw_table_scan_profile_sat"

def sw_table_striped_profile_64 : NativeEnv → Profile → String → Int → Int → Except PyErr Result :=
  profileDispatch "parasail_sw_table_striped_profile_64"

def sw_table_striped_profile_32 : NativeEnv → Profile → String → Int → Int → Except PyErr Result :=
  profileDispatch "parasail_sw_table_striped_profile_32"

def sw_table_striped_profile_16 : NativeEnv → Profile → String → Int → Int → Except PyErr Result :=
  profileDispatch "parasail_sw_table_striped_profile_16"

def sw_table_striped_profile_8 : NativeEnv → Profile → String → Int → Int → Except PyErr Result :=
  profileDispatch "parasail_sw_table_striped_profile_8"

def sw_table_striped_profile_sat : NativeEnv → Profile → String → Int → Int → Except PyErr Result :=
  profileDispatch "parasail_sw_table_striped_profile_sat"

def sw_rowcol_scan_profile_64 : NativeEnv → Profile → String → Int → Int → Except PyErr Result :=
  profileDispatch "parasail_sw_rowcol_scan_profile_64"

def sw_rowcol_scan_profile_32 : NativeEnv → Profile → String → Int → Int → Except PyErr Result :=
  profileDispatch "parasail_sw_rowcol_scan_profile_32"

def sw_rowcol_scan_profile_16 : NativeEnv → Profile → String → Int → Int → Except PyErr Result :=
  profileDispatch "parasail_sw_rowcol_scan_profile_16"

def sw_rowcol_scan_profile_8 : NativeEnv → Profile → String → Int → Int → Except PyErr Result :=
  profileDispatch "parasail_sw_rowcol_scan_profile_8"

def sw_rowcol_scan_profile_sat : NativeEnv → Profile → String → Int → Int → Except PyErr Result :=
  profileDispatch "parasail_sw_rowcol_scan_profile_sat"

def sw_rowcol_striped_profile_64 : NativeEnv → Profile → String → Int → Int → Except PyErr Result :=
  profileDispatch "parasail_sw_rowcol_striped_profile_64"

def sw_rowcol_striped_profile_32 : NativeEnv → Profile → String → Int → Int → Except PyErr Result :=
  profileDispatch "parasail_sw_rowcol_striped_profile_32"

def sw_rowcol_striped_profile_16 : NativeEnv → Profile → String → Int → Int → Except PyErr Result :=
  profileDispatch "parasail_sw_rowcol_striped_profile_16"

def sw_rowcol_striped_profile_8 : NativeEnv → Profile → String → Int → Int → Except PyErr Result :=
  profileDispatch "parasail_sw_rowcol_striped_profile_8"

def sw_rowcol_striped_profile_sat : NativeEnv → Profile → String → Int → Int → Except PyErr Result :=
  profileDispatch "parasail_sw_rowcol_striped_profile_sat"

def sw_trace_scan_profile_64 : NativeEnv → Profile → String → Int → Int → Except PyErr Result :=
  profileDispatchTrace "parasail_sw_trace_scan_profile_64"

def sw_trace_scan_profile_32 : NativeEnv → Profile → String → Int → Int → Except PyErr Result :=
  profileDispatchTrace "parasail_sw_trace_scan_profile_32"

def sw_trace_scan_profile_16 : NativeEnv → Profile → String → Int → Int → Except PyErr Result :=
  profileDispatchTrace "parasail_sw_trace_scan_profile_16"

def sw_trace_scan_profile_8 : NativeEnv → Profile → String → Int → Int → Except PyErr Result :=
  profileDispatchTrace "parasail_sw_trace_scan_profile_8"

def sw_trace_scan_profile_sat : NativeEnv → Profile → String → Int → Int → Except PyErr Result :=
  profileDispatchTrace "parasail_sw_trace_scan_profile_sat"

def sw_trace_striped_profile_64 : NativeEnv → Profile → String → Int → Int → Except PyErr Result :=
  profileDispatchTrace "parasail_sw_trace_striped_profile_64"

def sw_trace_striped_profile_32 : NativeEnv → Profile → String → Int → Int → Except PyErr Result :=
  profileDispatchTrace "parasail_sw_trace_striped_profile_32"

def sw_trace_striped_profile_16 : NativeEnv → Profile → String → Int → Int → Except PyErr Result :=
  profileDispatchTrace "parasail_sw_trace_striped_profile_16"

def sw_trace_striped_profile_8 : NativeEnv → Profile → String → Int → Int → Except PyErr Result :=
  profileDispatchTrace "parasail_sw_trace_striped_profile_8"

def sw_trace_striped_profile_sat : NativeEnv → Profile → String → Int → Int → Except PyErr Result :=
  profileDispatchTrace "parasail_sw_trace_striped_profile_sat"

def sw_stats_scan_profile_64 : NativeEnv → Profile → String → Int → Int → Except PyErr Result :=
  profileDispatch "parasail_sw_stats_scan_profile_64"

def sw_stats_scan_profile_32 : NativeEnv → Profile → String → Int → Int → Except PyErr Result :=
  profileDispatch "parasail_sw_stats_scan_profile_32"

def sw_stats_scan_profile_16 : NativeEnv → Profile → String → Int → Int → Except PyErr Result :=
  profileDispatch "parasail_sw_stats_scan_profile_16"

def sw_stats_scan_profile_8 : NativeEnv → Profile → String → Int → Int → Except PyErr Result :=
  profileDispatch "parasail_sw_stats_scan_profile_8"

def sw_stats_scan_profile_sat : NativeEnv → Profile → String → Int → Int → Except PyErr Result :=
  profileDispatch "parasail_sw_stats_scan_profile_sat"

def sw_stats_striped_profile_64 : NativeEnv → Profile → String → Int → Int → Except PyErr Result :=
  profileDispatch "parasail_sw_stats_striped_profile_64"

def sw_stats_striped_profile_32 : NativeEnv → Profile → String → Int → Int → Except PyErr Result :=
  profileDispatch "parasail_sw_stats_striped_profile_32"

def sw_stats_striped_profile_16 : NativeEnv → Profile → String → Int → Int → Except PyErr Result :=
  profileDispatch "parasail_sw_stats_striped_profile_16"

def sw_stats_striped_profile_8 : NativeEnv → Profile → String → Int → Int → Except PyErr Result :=
  profileDispatch "parasail_sw_stats_striped_profile_8"

def sw_stats_striped_profile_sat : NativeEnv → Profile → String → Int → Int → Except PyErr Result :=
  profileDispatch "parasail_sw_stats_striped_profile_sat"

def sw_stats_table_scan_profile_64 : NativeEnv → Profile → String → Int → Int → Except PyErr Result :=
  profileDispatch "parasail_sw_stats_table_scan_profile_64"

def sw_stats_table_scan_profile_32 : NativeEnv → Profile → String → Int → Int → Except PyErr Result :=
  profileDispatch "parasail_sw_stats_table_scan_profile_32"

def sw_stats_table_scan_profile_16 : NativeEnv → Profile → String → Int → Int → Except PyErr Result :=
  profileDispatch "parasail_sw_stats_table_scan_profile_16"

def sw_stats_table_scan_profile_8 : NativeEnv → Profile → String → Int → Int → Except PyErr Result :=
  profileDispatch "parasail_sw_stats_table_scan_profile_8"

def sw_stats_table_scan_profile_sat : NativeEnv → Profile → String → Int → Int → Except PyErr Result :=
  profileDispatch "parasail_sw_stats_table_scan_profile_sat"

def sw_stats_table_striped_profile_64 : NativeEnv → Profile → String → Int → Int → Except PyErr Result :=
  profileDispatch "parasail_sw_stats_table_striped_profile_64"

def sw_stats_table_striped_profile_32 : NativeEnv → Profile → String → Int → Int → Except PyErr Result :=
  profileDispatch "parasail_sw_stats_table_striped_profile_32"

def sw_stats_table_striped_profile_16 : NativeEnv → Profile → String → Int → Int → Except PyErr Result :=
  profileDispatch "parasail_sw_stats_table_striped_profile_16"

def sw_stats_table_striped_profile_8 : NativeEnv → Profile → String → Int → Int → Except PyErr Result :=
  profileDispatch "parasail_sw_stats_table_striped_profile_8"

def sw_stats_table_striped_profile_sat : NativeEnv → Profile → String → Int → Int → Except PyErr Result :=
  profileDispatch "parasail_sw_stats_table_striped_profile_sat"

def sw_stats_rowcol_scan_profile_64 : NativeEnv → Profile → String → Int → Int → Except PyErr Result :=
  profileDispatch "parasail_sw_stats_rowcol_scan_profile_64"

def sw_stats_rowcol_scan_profile_32 : NativeEnv → Profile → String → Int → Int → Except PyErr Result :=
  profileDispatch "parasail_sw_stats_rowcol_scan_profile_32"

def sw_stats_rowcol_scan_profile_16 : NativeEnv → Profile → String → Int → Int → Except PyErr Result :=
  profileDispatch "parasail_sw_stats_rowcol_scan_profile_16"

def sw_stats_rowcol_scan_profile_8 : NativeEnv → Profile → String → Int → Int → Except PyErr Result :=
  profileDispatch "parasail_sw_stats_rowcol_scan_profile_8"

def sw_stats_rowcol_scan_profile_sat : NativeEnv → Profile → String → Int → Int → Except PyErr Result :=
  profileDispatch "parasail_sw_stats_rowcol_scan_profile_sat"

def sw_stats_rowcol_striped_profile_64 : NativeEnv → Profile → String → Int → Int → Except PyErr Result :=
  profileDispatch "parasail_sw_stats_rowcol_striped_profile_64"

def sw_stats_rowcol_striped_profile_32 : NativeEnv → Profile → String → Int → Int → Except PyErr Result :=
  profileDispatch "parasail_sw_stats_rowcol_striped_profile_32"

def sw_stats_rowcol_striped_profile_16 : NativeEnv → Profile → String → Int → Int → Except PyErr Result :=
  profileDispatch "parasail_sw_stats_rowcol_striped_profile_16"

def sw_stats_rowcol_striped_profile_8 : NativeEnv → Profile → String → Int → Int → Except PyErr Result :=
  profileDispatch "parasail_sw_stats_rowcol_striped_profile_8"

def sw_stats_rowcol_striped_profile_sat : NativeEnv → Profile → String → Int → Int → Except PyErr Result :=
  profileDispatch "parasail_sw_stats_rowcol_striped_profile_sat"

/-! ### Native-side ownership contract and concrete fixtures -/

/-- Modelled from the spec: the ownership behaviour of the native library
(which is external to this repository).  Built-in matrices returned by
`parasail_matrix_lookup` are shared/static and not owned by the binding
(their `user_matrix` field is NULL), while matrices returned by
`parasail_matrix_create` and `parasail_matrix_copy` are owned by the caller
(`user_matrix` non-NULL). -/
structure NativeSpec (env : NativeEnv) : Prop where
  lookup_not_owned : ∀ bs p, env.matrix_lookup bs = some p →
    p.user_matrix = none
  create_owned : ∀ bs x y p, env.matrix_create bs x y = some p →
    p.user_matrix.isSome = true
  copy_owned : ∀ q p, env.matrix_copy q = some p →
    p.user_matrix.isSome = true

/-- A built-in-style native matrix (not user-owned). -/
def mat0 : matrix_t :=
  { name := some (bEnc "blosum62"), matrix := 10, mapper := 11,
    size := 4, max := 1, min := -1, user_matrix := none }

/-- A user-owned native matrix, as `matrix_create`/`matrix_copy` return. -/
def matOwned : matrix_t := { mat0 with user_matrix := some 1 }

/-- A concrete native result struct. -/
def res0 : result_t :=
  { score := 7, end_query := 3, end_ref := 5, flag := 0, extra := none }

/-- A concrete native cigar struct. -/
def cig0 : cigar_t := { seq := none, len := 0, beg_query := 0, beg_ref := 0 }

def pd0 : profile_data_t := { score := none, matches_ := none, similar := none }

/-- A concrete native profile struct for the query `"ACGT"`. -/
def prof0 : profile_t :=
  { s1 := some (bEnc "ACGT"), s1Len := 4, matrix := some mat0,
    profile8 := pd0, profile16 := pd0, profile32 := pd0, profile64 := pd0,
    free := none, stop := 0 }

/-- A baseline native environment: every lookup/copy/create returns NULL,
every capability query answers 0, alignment calls return a fixed result
struct. -/
def defEnv : NativeEnv :=
  { matrix_lookup := fun _ => none
    matrix_from_file := fun _ => none
    isfile := fun _ => false
    matrix_create := fun _ _ _ => none
    matrix_copy := fun _ => none
    profile_create := fun _ _ _ _ => none
    ssw_init := fun _ _ _ _ => none
    alignSeq := fun _ _ _ _ _ _ _ _ => some res0
    alignBanded := fun _ _ _ _ _ _ _ _ _ => some res0
    alignProfile := fun _ _ _ _ _ _ => some res0
    is_stats := fun _ => 0
    is_table := fun _ => 0
    is_stats_table := fun _ => 0
    is_rowcol := fun _ => 0
    is_trace := fun _ => 0
    get_matches := fun _ => 0
    get_similar := fun _ => 0
    get_length := fun _ => 0
    get_score_table := fun _ => 100
    get_matches_table := fun _ => 101
    get_similar_table := fun _ => 102
    get_length_table := fun _ => 103
    get_score_row := fun _ => 104
    get_matches_row := fun _ => 105
    get_similar_row := fun _ => 106
    get_length_row := fun _ => 107
    get_score_col := fun _ => 108
    get_matches_col := fun _ => 109
    get_similar_col := fun _ => 110
    get_length_col := fun _ => 111
    result_get_cigar := fun _ _ _ _ _ _ => some cig0 }

/-- An environment satisfying the native ownership contract with total
lookup/create/copy. -/
def envOwn : NativeEnv :=
  { defEnv with
    matrix_lookup := fun _ => some mat0
    matrix_create := fun _ _ _ => some matOwned
    matrix_copy := fun _ => some matOwned }

/-- An environment whose results report the trace capability. -/
def envTrace : NativeEnv := { defEnv with is_trace := fun _ => 1 }

/-- An environment whose results report the stats-table capability. -/
def envStatsTable : NativeEnv := { defEnv with is_stats_table := fun _ => 1 }

/-- A score-only `Result`, as the plain `nw` dispatch builds it. -/
def scoreOnlyResult : Result :=
  { pointer := some res0, len_query := 2, len_ref := 3,
    query := none, ref := none, matrix := none, cigar_ := none }

/-- A trace-capable `Result`, as `nw_trace` builds it. -/
def traceResult : Result :=
  { pointer := some res0, len_query := 2, len_ref := 3,
    query := some "AC", ref := some "ACG",
    matrix := some { pointer := some mat0 }, cigar_ := none }

/-- A Python-level `Profile` holding `prof0`. -/
def profFix : Profile :=
  { pointer := some prof0, matrix_ := { pointer := some mat0 },
    s1b := bEnc "ACGT" }

def pstr (s : String) : pstring_t :=
  { l := (bEnc s).length, s := some (bEnc s) }

def seqRecA : sequence_t :=
  { name := pstr "a", comment := pstr "", seq := pstr "ACGT", qual := pstr "" }

def seqRecB : sequence_t :=
  { name := pstr "b", comment := pstr "", seq := pstr "GGCC", qual := pstr "" }

/-- A concrete two-record native sequences collection (`l = 2`, and the
native array holds exactly two records). -/
def seqsTwo : sequences_t :=
  { seqs := [seqRecA, seqRecB], l := 2, characters := 8,
    shortest := 4, longest := 4, mean := 4.0, stddev := 0.0 }

def sequencesTwo : Sequences := { pointer := some seqsTwo }

/-! ### Theorems -/

/-- Claim C9: for every Matrix and every bare slice key (a slice not
wrapped in a tuple), `matrix[k] = value` raises a `TypeError` before any
native set-value call is made, because the implementation subscripts the
slice object itself (`key[0]`, bindings_v2.py line 390). -/
theorem c9_bare_slice_typeerror (m : Matrix) (a b st : Option Int) (v : Int) :
    Matrix.setitem m (.slice a b st) v =
      ([], some (.typeError "\x27slice\x27 object is not subscriptable")) := by
  rfl

/-- Claim C10: for every input, `ssw_init` raises a `TypeError` and never
returns a Profile, because it calls the `Profile` constructor with two
positional arguments while `Profile.__init__` requires three
(pointer, matrix, s1b). -/
theorem c10_ssw_init_typeerror (env : NativeEnv) (s1 : String) (m : Matrix)
    (score_size : Int) :
    ssw_init env s1 m score_size =
      .error (.typeError
        "__init__() missing 1 required positional argument: \x27s1b\x27") := by
  rfl

/-- Claim C2 (code bug, off-by-one upper bound): on the concrete two-record
collection `sequencesTwo`, indexing at `-1` returns the last record and a
non-integer key raises `TypeError`, as the claim states; but indexing at
`len(sequences) = 2` does NOT raise an index error — the bounds check
`key > self.pointer[0].l` (bindings_v2.py line 886) lets `key = l` through
and the code returns a `Sequence` view of `seqs[2]`, one element past the
end of the native array (`none` in the model), instead of raising. -/
theorem c2_sequences_index_offbyone :
    Sequences.getitem sequencesTwo (.int (-1)) = .ok { pointer := some seqRecB }
    ∧ Sequences.getitem sequencesTwo (.other "str") =
        .error (.typeError "Index must be int, not str")
    ∧ Sequences.getitem sequencesTwo (.int 2) = .ok { pointer := none } := by
  refine ⟨?_, ?_, ?_⟩ <;> rfl

/-- Claim C1 (counterexample): `matrix_create` performs no NULL check — in
the environment `defEnv`, whose native `parasail_matrix_create` returns
NULL, `matrix_create` completes without error (its result type `Matrix`
reflects that the non-string `Matrix.__init__` path cannot raise) and
returns a handle wrapping the NULL pointer. -/
theorem c1_matrix_create_wraps_null_cex :
    matrix_create defEnv "AB" 1 (-1) = { pointer := none } := by
  rfl

/-- Claim C1 (amended): constructing a Matrix from a string name fails
with a descriptive `ValueError` when the native lookup returns NULL (and
the fallback file-based construction is unavailable or also returns NULL),
and a string-constructed Matrix never wraps NULL; but `matrix_create`, the
`profile_create_*` family, and the alignment dispatch functions perform no
NULL check and wrap whatever pointer the native call returns. -/
theorem c1_null_handling_amended (env : NativeEnv)
    (nmA nmB alph s1 s2 : String) (x y o e : Int) (mm : Matrix)
    (hA1 : env.matrix_lookup (bEnc nmA) = none) (hA2 : env.isfile nmA = false)
    (hB1 : env.matrix_lookup (bEnc nmB) = none) (hB2 : env.isfile nmB = true)
    (hB3 : env.matrix_from_file (bEnc nmB) = none)
    (hC : env.matrix_create (bEnc alph) x y = none)
    (hD : env.profile_create "parasail_profile_create_16" (bEnc s1)
      s1.length mm.pointer = none)
    (hE : env.alignSeq "parasail_nw" (bEnc s1) s1.length (bEnc s2)
      s2.length o e mm.pointer = none) :
    Matrix.initFromString env nmA =
      .error (.valueError ("Cannot open matrix file `" ++ nmA ++ "\x27"))
    ∧ Matrix.initFromString env nmB =
        .error (.valueError "specified matrix not found")
    ∧ (∀ nm m, Matrix.initFromString env nm = .ok m → m.pointer.isSome = true)
    ∧ matrix_create env alph x y = { pointer := none }
    ∧ profile_create_16 env s1 mm =
        .ok { pointer := none, matrix_ := mm, s1b := bEnc s1 }
    ∧ (nw env s1 s2 o e mm).pointer = none := by
  refine ⟨?_, ?_, ?_, ?_, ?_, ?_⟩
  · simp [Matrix.initFromString, hA1, hA2]
  · simp [Matrix.initFromString, hB1, hB2, hB3]
  · intro nm m hok
    unfold Matrix.initFromString at hok
    cases hlk : env.matrix_lookup (bEnc nm) with
    | some p => rw [hlk] at hok; cases hok; rfl
    | none =>
      rw [hlk] at hok
      by_cases hf : env.isfile nm = true
      · rw [if_pos hf] at hok
        cases hff : env.matrix_from_file (bEnc nm) with
        | some q => rw [hff] at hok; cases hok; rfl
        | none => rw [hff] at hok; cases hok
      · rw [if_neg hf] at hok; cases hok
  · simp [matrix_create, Matrix.initFromPointer, hC]
  · simp [profile_create_16, profileCreate, profileNew, hD]
  · simp [nw, seqDispatch, hE]

/-- An environment in which only the path `"other"` is an existing file and
the native alignment entry points return NULL. -/
def envIsFile : NativeEnv :=
  { defEnv with
    isfile := fun s => s == "other"
    alignSeq := fun _ _ _ _ _ _ _ _ => none }

/-- Witness for the amended C1 theorem at a concrete environment and
concrete inputs. -/
theorem c1_null_handling_witness :
    Matrix.initFromString envIsFile "nosuch" =
      .error (.valueError ("Cannot open matrix file `" ++ "nosuch" ++ "\x27"))
    ∧ Matrix.initFromString envIsFile "other" =
        .error (.valueError "specified matrix not found")
    ∧ matrix_create envIsFile "CD" 2 (-3) = { pointer := none } := by
  have h := c1_null_handling_amended envIsFile "nosuch" "other" "CD" "AA" "CC"
    2 (-3) 1 1 { pointer := none } rfl (by decide) rfl (by decide) rfl rfl
    rfl rfl
  exact ⟨h.1, h.2.1, h.2.2.2.1⟩

/-- Claim C3: on any Result from a score-only configuration (all the
native is-stats / is-table / is-stats-table / is-rowcol queries answer 0),
every stats, table, row and col property raises an `AttributeError` naming
the missing capability, while `score`, `end_query` and `end_ref` succeed
with the struct's fields. -/
theorem c3_score_only_accessors (env : NativeEnv) (r : Result) (p : result_t)
    (h0 : r.pointer = some p)
    (h1 : env.is_stats r.pointer = 0) (h2 : env.is_table r.pointer = 0)
    (h3 : env.is_stats_table r.pointer = 0)
    (h4 : env.is_rowcol r.pointer = 0) :
    Result.matches_ env r =
      .error (.attributeError "\x27Result\x27 object has no stats")
    ∧ Result.similar env r =
        .error (.attributeError "\x27Result\x27 object has no stats")
    ∧ Result.length env r =
        .error (.attributeError "\x27Result\x27 object has no stats")
    ∧ Result.score_table env r =
        .error (.attributeError "\x27Result\x27 object has no score table")
    ∧ Result.matches_table env r =
        .error (.attributeError "\x27Result\x27 object has no stats tables")
    ∧ Result.similar_table env r =
        .error (.attributeError "\x27Result\x27 object has no stats tables")
    ∧ Result.length_table env r =
        .error (.attributeError "\x27Result\x27 object has no stats tables")
    ∧ Result.score_row env r =
        .error (.attributeError "\x27Result\x27 object has no row/col arrays")
    ∧ Result.matches_row env r =
        .error (.attributeError "\x27Result\x27 object has no row/col arrays")
    ∧ Result.similar_row env r =
        .error (.attributeError "\x27Result\x27 object has no row/col arrays")
    ∧ Result.length_row env r =
        .error (.attributeError "\x27Result\x27 object has no row/col arrays")
    ∧ Result.score_col env r =
        .error (.attributeError "\x27Result\x27 object has no row/col arrays")
    ∧ Result.matches_col env r =
        .error (.attributeError "\x27Result\x27 object has no row/col arrays")
    ∧ Result.similar_col env r =
        .error (.attributeError "\x27Result\x27 object has no row/col arrays")
    ∧ Result.length_col env r =
        .error (.attributeError "\x27Result\x27 object has no row/col arrays")
    ∧ Result.score r = .ok p.score
    ∧ Result.end_query r = .ok p.end_query
    ∧ Result.end_ref r = .ok p.end_ref := by
  rw [h0] at h1 h2 h3 h4
  refine ⟨?_, ?_, ?_, ?_, ?_, ?_, ?_, ?_, ?_, ?_, ?_, ?_, ?_, ?_, ?_, ?_,
    ?_, ?_⟩ <;>
    simp [Result.matches_, Result.similar, Result.length, Result.score_table,
      Result.matches_table, Result.similar_table, Result.length_table,
      Result.score_row, Result.matches_row, Result.similar_row,
      Result.length_row, Result.score_col, Result.matches_col,
      Result.similar_col, Result.length_col, Result.score, Result.end_query,
      Result.end_ref, h0, h1, h2, h3, h4]

/-- Witness for C3 at the baseline environment (all capability queries
answer 0) and a concrete score-only Result. -/
theorem c3_score_only_witness :
    Result.matches_ defEnv scoreOnlyResult =
      .error (.attributeError "\x27Result\x27 object has no stats")
    ∧ Result.score scoreOnlyResult = .ok 7 := by
  have h := c3_score_only_accessors defEnv scoreOnlyResult res0 rfl rfl rfl
    rfl rfl
  exact ⟨h.1, h.2.2.2.2.2.2.2.2.2.2.2.2.2.2.2.1⟩

/-- Claim C4: under the native ownership contract, a built-in Matrix
(obtained from `parasail_matrix_lookup`) has its ownership flag
(`user_matrix`) unset and its destruction performs no
`parasail_matrix_free` call, while a Matrix from `matrix_create` or
`copy()` has the flag set and its destruction performs exactly one free
call (Python's deterministic refcounting runs `__del__` once per object;
the model evaluates that one destruction). -/
theorem c4_matrix_ownership_free (env : NativeEnv) (hs : NativeSpec env)
    (bs : Bytes) (alph : String) (x y : Int) (m : Matrix) (p q : matrix_t)
    (hcreate : env.matrix_create (bEnc alph) x y = some p)
    (hcopy : env.matrix_copy m.pointer = some q) :
    (∀ pb, env.matrix_lookup bs = some pb → pb.user_matrix = none)
    ∧ (Matrix.del (Matrix.initFromPointer (env.matrix_lookup bs))).1 = []
    ∧ p.user_matrix.isSome = true
    ∧ Matrix.del (matrix_create env alph x y) = ([()], none)
    ∧ q.user_matrix.isSome = true
    ∧ Matrix.del (Matrix.copy env m) = ([()], none) := by
  refine ⟨fun pb hpb => hs.lookup_not_owned bs pb hpb, ?_, ?_, ?_, ?_, ?_⟩
  · cases hlk : env.matrix_lookup bs with
    | none => simp [Matrix.initFromPointer, Matrix.del]
    | some pb =>
      have hflag := hs.lookup_not_owned bs pb hlk
      simp [Matrix.initFromPointer, Matrix.del, hflag]
  · exact hs.create_owned _ x y p hcreate
  · have hflag := hs.create_owned _ x y p hcreate
    simp [matrix_create, Matrix.initFromPointer, Matrix.del, hcreate, hflag]
  · exact hs.copy_owned _ q hcopy
  · have hflag := hs.copy_owned _ q hcopy
    simp [Matrix.copy, Matrix.initFromPointer, Matrix.del, hcopy, hflag]

/-- The ownership contract holds in the concrete environment `envOwn`. -/
theorem envOwn_native_spec : NativeSpec envOwn := by
  constructor
  · intro bs p hp
    cases hp
    rfl
  · intro bs x y p hp
    cases hp
    rfl
  · intro q p hp
    cases hp
    rfl

/-- Witness for C4 at the concrete environment `envOwn`. -/
theorem c4_matrix_ownership_witness :
    (Matrix.del (Matrix.initFromPointer
      (envOwn.matrix_lookup (bEnc "blosum62")))).1 = []
    ∧ Matrix.del (matrix_create envOwn "AB" 1 (-1)) = ([()], none)
    ∧ Matrix.del (Matrix.copy envOwn { pointer := some mat0 }) =
        ([()], none) := by
  have h := c4_matrix_ownership_free envOwn envOwn_native_spec
    (bEnc "blosum62") "AB" 1 (-1) { pointer := some mat0 } matOwned matOwned
    rfl rfl
  exact ⟨h.2.1, h.2.2.2.1, h.2.2.2.2.2⟩

/-- Claim C8: a Result produced by the stats+table dispatch
`nw_stats_table` (so the native `is_stats_table` query is nonzero) exposes
a `score_table` view whose shape is `(len_query, len_ref)`, the query and
reference lengths captured at dispatch time. -/
theorem c8_score_table_shape (env : NativeEnv) (s1 s2 : String) (o e : Int)
    (m : Matrix)
    (hcap : env.is_stats_table (nw_stats_table env s1 s2 o e m).pointer ≠ 0) :
    (nw_stats_table env s1 s2 o e m).len_query = s1.length
    ∧ (nw_stats_table env s1 s2 o e m).len_ref = s2.length
    ∧ ∃ a, Result.score_table env (nw_stats_table env s1 s2 o e m) = .ok a
        ∧ a.shape = [s1.length, s2.length] := by
  refine ⟨rfl, rfl, ?_⟩
  unfold Result.score_table
  rw [if_neg (by intro hand; exact hcap hand.2)]
  exact ⟨_, rfl, rfl⟩

/-- Witness for C8 at the concrete environment `envStatsTable`. -/
theorem c8_score_table_witness :
    ∃ a, Result.score_table envStatsTable
        (nw_stats_table envStatsTable "AC" "ACG" 10 1 { pointer := some mat0 })
        = .ok a
      ∧ a.shape = ["AC".length, "ACG".length] := by
  exact (c8_score_table_shape envStatsTable "AC" "ACG" 10 1
    { pointer := some mat0 } (by decide)).2.2

/-- On a trace-capable Result whose cigar is already cached, any number of
further `cigar` accesses return the cached handle, leave the state
unchanged, and perform no native construction. -/
theorem cigarIter_of_cached (env : NativeEnv) (r : Result) (c : Cigar)
    (htrace : env.is_trace r.pointer ≠ 0) (hc : r.cigar_ = some c) :
    ∀ n, Result.cigarIter env n r = .ok (List.replicate n c, r, 0) := by
  intro n
  induction n with
  | zero => rfl
  | succ k ih =>
    unfold Result.cigarIter
    rw [show Result.cigarAccess env r = .ok (c, r, 0) by
      unfold Result.cigarAccess
      rw [if_neg htrace, hc]]
    simp [ih, List.replicate_succ]

/-- Claim C5: on a trace-capable Result with an empty cache, any positive
number of repeated `cigar` accesses all return one and the same Cigar
handle (the cached one), and the native cigar construction
`parasail_result_get_cigar` runs exactly once across all of them. -/
theorem c5_cigar_cached_once (env : NativeEnv) (r : Result) (n : Nat)
    (htrace : env.is_trace r.pointer ≠ 0) (hcache : r.cigar_ = none) :
    ∃ c r', Result.cigarIter env (n + 1) r = .ok (List.replicate (n + 1) c, r', 1)
      ∧ r'.cigar_ = some c := by
  set c : Cigar := { pointer := (env.result_get_cigar r.pointer
    (bOpt r.query) r.len_query (bOpt r.ref) r.len_ref
    (r.matrix.bind Matrix.pointer)) } with hcdef
  have hacc : Result.cigarAccess env r = .ok (c, { r with cigar_ := some c }, 1) := by
    unfold Result.cigarAccess
    rw [if_neg htrace, hcache]
  refine ⟨c, { r with cigar_ := some c }, ?_, rfl⟩
  unfold Result.cigarIter
  rw [hacc]
  simp [cigarIter_of_cached env { r with cigar_ := some c } c htrace rfl n,
    List.replicate_succ]

/-- Witness for C5: two successive accesses on a concrete trace-capable
Result return the same cigar and construct natively once. -/
theorem c5_cigar_cached_witness :
    ∃ c r', Result.cigarIter envTrace 2 traceResult =
        .ok (List.replicate 2 c, r', 1)
      ∧ r'.cigar_ = some c :=
  c5_cigar_cached_once envTrace traceResult 1 (by decide) rfl

/-- Latin-1 decoding preserves length, so `len(profile.s1)` is the byte
length of the native profile's query. -/
theorem sDec_length (bs : Bytes) : (sDec bs).length = bs.length := by
  simp [sDec, String.length]

/-- Claim C6: every dispatch function — each generated wrapper is by
definition the instance of one of the five embedded shapes at its native
symbol — stores into the Result it constructs the query and reference
lengths taken from its own arguments, and the trace-capable shapes (both
the sequence-pair form and the Profile form) additionally store the
original query, the reference, and the Matrix. -/
theorem c6_dispatch_threads_lengths (sym : String) (env : NativeEnv)
    (s1 s2 : String) (o e k : Int) (m : Matrix) (profile : Profile)
    (pt : profile_t) (s1b : Bytes)
    (hp : profile.pointer = some pt) (hs1 : pt.s1 = some s1b) :
    ((seqDispatch sym env s1 s2 o e m).len_query = s1.length
      ∧ (seqDispatch sym env s1 s2 o e m).len_ref = s2.length)
    ∧ ((bandedDispatch sym env s1 s2 o e k m).len_query = s1.length
      ∧ (bandedDispatch sym env s1 s2 o e k m).len_ref = s2.length)
    ∧ ((seqDispatchTrace sym env s1 s2 o e m).len_query = s1.length
      ∧ (seqDispatchTrace sym env s1 s2 o e m).len_ref = s2.length
      ∧ (seqDispatchTrace sym env s1 s2 o e m).query = some s1
      ∧ (seqDispatchTrace sym env s1 s2 o e m).ref = some s2
      ∧ (seqDispatchTrace sym env s1 s2 o e m).matrix = some m)
    ∧ (∃ r, profileDispatch sym env profile s2 o e = .ok r
        ∧ r.len_query = s1b.length ∧ r.len_ref = s2.length)
    ∧ (∃ r, profileDispatchTrace sym env profile s2 o e = .ok r
        ∧ r.len_query = s1b.length ∧ r.len_ref = s2.length
        ∧ r.query = some (sDec s1b) ∧ r.ref = some s2
        ∧ r.matrix = some profile.matrix_) := by
  refine ⟨⟨rfl, rfl⟩, ⟨rfl, rfl⟩, ⟨rfl, rfl, rfl, rfl, rfl⟩, ?_, ?_⟩
  · unfold profileDispatch
    rw [hp]
    simp only [hs1]
    exact ⟨_, rfl, sDec_length s1b, rfl⟩
  · unfold profileDispatchTrace
    rw [hp]
    simp only [hs1]
    exact ⟨_, rfl, sDec_length s1b, rfl, rfl, rfl, rfl⟩

/-- Witness for C6 at concrete inputs (symbol `parasail_nw`, sequences
`"AC"`/`"ACGT"`, the concrete profile `profFix`). -/
theorem c6_dispatch_threads_witness :
    (seqDispatch "parasail_nw" defEnv "AC" "ACGT" 10 1
      { pointer := some mat0 }).len_query = "AC".length
    ∧ (∃ r, profileDispatchTrace "parasail_nw" defEnv profFix "ACGT" 10 1
        = .ok r ∧ r.len_query = (bEnc "ACGT").length
        ∧ r.len_ref = "ACGT".length
        ∧ r.query = some (sDec (bEnc "ACGT")) ∧ r.ref = some "ACGT"
        ∧ r.matrix = some profFix.matrix_) := by
  have h := c6_dispatch_threads_lengths "parasail_nw" defEnv "AC" "ACGT"
    10 1 3 { pointer := some mat0 } profFix prof0 (bEnc "ACGT") rfl rfl
  exact ⟨h.1.1, h.2.2.2.2⟩

/-- `step or 1` never yields a zero step. -/
theorem orOne_ne_zero (st : Option Int) : orOne st ≠ 0 := by
  cases st with
  | none => simp [orOne]
  | some k =>
    by_cases hk : k = 0 <;> simp [orOne, hk]

/-- A Python range with a nonzero step enumerates distinct values. -/
theorem pyRange_nodup (a b st : Int) (h : st ≠ 0) : (pyRange a b st).Nodup := by
  unfold pyRange
  have hinj : Function.Injective (fun i : Nat => a + st * Int.ofNat i) := by
    intro x y hxy
    simp only at hxy
    have hst : st * Int.ofNat x = st * Int.ofNat y := by
      linarith [add_left_cancel hxy]
    exact Int.ofNat.inj (mul_left_cancel₀ h hst)
  exact List.Nodup.map hinj (List.nodup_range _)

theorem pairRow_mem (v j : Int) (rs : List Int) (a b w : Int) :
    ((a, b, w) ∈ rs.map (fun r => (r, j, v))) ↔ (a ∈ rs ∧ b = j ∧ w = v) := by
  simp only [List.mem_map, Prod.mk.injEq]
  constructor
  · rintro ⟨r, hr, rfl, rfl, rfl⟩
    exact ⟨hr, rfl, rfl⟩
  · rintro ⟨ha, rfl, rfl⟩
    exact ⟨a, ha, rfl, rfl, rfl⟩

theorem pairRow_nodup (v j : Int) (rs : List Int) (h : rs.Nodup) :
    (rs.map (fun r => (r, j, v))).Nodup := by
  refine List.Nodup.map ?_ h
  intro x y hxy
  simpa using congrArg (fun t => t.1) hxy

theorem pairCol_mem (v i : Int) (cs : List Int) (a b w : Int) :
    ((a, b, w) ∈ cs.map (fun c => (i, c, v))) ↔ (a = i ∧ b ∈ cs ∧ w = v) := by
  simp only [List.mem_map, Prod.mk.injEq]
  constructor
  · rintro ⟨c, hc, rfl, rfl, rfl⟩
    exact ⟨rfl, hc, rfl⟩
  · rintro ⟨rfl, hb, rfl⟩
    exact ⟨b, hb, rfl, rfl, rfl⟩

theorem pairCol_nodup (v i : Int) (cs : List Int) (h : cs.Nodup) :
    (cs.map (fun c => (i, c, v))).Nodup := by
  refine List.Nodup.map ?_ h
  intro x y hxy
  simpa using congrArg (fun t => t.2.1) hxy

/-- Membership in the per-row concatenation of per-cell set-value calls. -/
theorem prodCalls_mem (v : Int) (rs cs : List Int) (a b w : Int) :
    ((a, b, w) ∈ rs.flatMap (fun r => cs.map (fun c => (r, c, v)))) ↔
      (a ∈ rs ∧ b ∈ cs ∧ w = v) := by
  simp only [List.mem_flatMap]
  constructor
  · rintro ⟨r, hr, hm⟩
    obtain ⟨ha, hb, hw⟩ := (pairCol_mem v r cs a b w).mp hm
    subst ha
    exact ⟨hr, hb, hw⟩
  · rintro ⟨ha, hb, hw⟩
    exact ⟨a, ha, (pairCol_mem v a cs a b w).mpr ⟨rfl, hb, hw⟩⟩

/-- The per-row concatenation of per-cell calls repeats no call when rows
and columns are duplicate-free. -/
theorem prodCalls_nodup (v : Int) (rs cs : List Int) (hrs : rs.Nodup)
    (hcs : cs.Nodup) :
    (rs.flatMap (fun r => cs.map (fun c => (r, c, v)))).Nodup := by
  induction rs with
  | nil => simp
  | cons r rest ih =>
    rw [List.flatMap_cons]
    have hr : r ∉ rest := (List.nodup_cons.mp hrs).1
    have hrest : rest.Nodup := (List.nodup_cons.mp hrs).2
    refine List.Nodup.append (pairCol_nodup v r cs hcs) (ih hrest) ?_
    intro x hx hx'
    obtain ⟨c, _, rfl⟩ := List.mem_map.mp hx
    have hmem := (prodCalls_mem v rest cs r c v).mp hx'
    exact hr hmem.1

/-- Evaluating the nested slice-pair loops with both inner bounds present:
every row of the outer range contributes one call per inner-range column,
and no exception occurs. -/
theorem sliceRowsLoop_eq (c0 c1 : Int) (st1 : Option Int) (v : Int)
    (rs : List Int) :
    sliceRowsLoop (some c0) (some c1) st1 v rs =
      (rs.flatMap (fun r => (pyRange c0 c1 (orOne st1)).map (fun c => (r, c, v))),
        none) := by
  induction rs with
  | nil => rfl
  | cons r rest ih =>
    simp [sliceRowsLoop, pyRangeE, ih, List.flatMap_cons]

/-- Claim C7: every Matrix mutation — `set_value`, a two-integer key, a
rectangular region (two slices), a column write (slice, int), a row
segment (int, slice), and a whole-row write (bare integer key) — proceeds
exclusively through the native set-value primitive with exactly one call
per written cell: the call log is duplicate-free, covers exactly the keyed
region, writes only the requested value, and no exception occurs (slices
taken with present bounds). -/
theorem c7_setitem_one_call_per_cell (m : Matrix) (p : matrix_t)
    (hp : m.pointer = some p) (v i j r0 r1 c0 c1 : Int) (st0 st1 : Option Int) :
    Matrix.set_value m i j v = ([(i, j, v)], none)
    ∧ Matrix.setitem m (.tup [.int i, .int j]) v = ([(i, j, v)], none)
    ∧ ((Matrix.setitem m (.tup [.slice (some r0) (some r1) st0,
          .slice (some c0) (some c1) st1]) v).2 = none
      ∧ (Matrix.setitem m (.tup [.slice (some r0) (some r1) st0,
          .slice (some c0) (some c1) st1]) v).1.Nodup
      ∧ ∀ a b w : Int,
          ((a, b, w) ∈ (Matrix.setitem m (.tup [.slice (some r0) (some r1) st0,
            .slice (some c0) (some c1) st1]) v).1 ↔
          (a ∈ pyRange r0 r1 (orOne st0) ∧ b ∈ pyRange c0 c1 (orOne st1)
            ∧ w = v)))
    ∧ ((Matrix.setitem m (.tup [.slice (some r0) (some r1) st0, .int j]) v).2
        = none
      ∧ (Matrix.setitem m (.tup [.slice (some r0) (some r1) st0, .int j]) v).1.Nodup
      ∧ ∀ a b w : Int,
          ((a, b, w) ∈ (Matrix.setitem m
            (.tup [.slice (some r0) (some r1) st0, .int j]) v).1 ↔
          (a ∈ pyRange r0 r1 (orOne st0) ∧ b = j ∧ w = v)))
    ∧ ((Matrix.setitem m (.tup [.int i, .slice (some c0) (some c1) st1]) v).2
        = none
      ∧ (Matrix.setitem m (.tup [.int i, .slice (some c0) (some c1) st1]) v).1.Nodup
      ∧ ∀ a b w : Int,
          ((a, b, w) ∈ (Matrix.setitem m
            (.tup [.int i, .slice (some c0) (some c1) st1]) v).1 ↔
          (a = i ∧ b ∈ pyRange c0 c1 (orOne st1) ∧ w = v)))
    ∧ ((Matrix.setitem m (.int i) v).2 = none
      ∧ (Matrix.setitem m (.int i) v).1.Nodup
      ∧ ∀ a b w : Int,
          ((a, b, w) ∈ (Matrix.setitem m (.int i) v).1 ↔
          (a = i ∧ b ∈ pyRange 0 p.size 1 ∧ w = v))) := by
  have hrect : Matrix.setitem m (.tup [.slice (some r0) (some r1) st0,
      .slice (some c0) (some c1) st1]) v =
      ((pyRange r0 r1 (orOne st0)).flatMap
        (fun r => (pyRange c0 c1 (orOne st1)).map (fun c => (r, c, v))), none) := by
    simp [Matrix.setitem, pyRangeE, sliceRowsLoop_eq]
  have hcol : Matrix.setitem m (.tup [.slice (some r0) (some r1) st0, .int j]) v =
      ((pyRange r0 r1 (orOne st0)).map (fun r => (r, j, v)), none) := by
    simp [Matrix.setitem, pyRangeE]
  have hrowseg : Matrix.setitem m (.tup [.int i, .slice (some c0) (some c1) st1]) v =
      ((pyRange c0 c1 (orOne st1)).map (fun c => (i, c, v)), none) := by
    simp [Matrix.setitem, pyRangeE]
  have hbare : Matrix.setitem m (.int i) v =
      ((pyRange 0 p.size 1).map (fun c => (i, c, v)), none) := by
    simp [Matrix.setitem, hp]
  refine ⟨rfl, rfl, ?_, ?_, ?_, ?_⟩
  · rw [hrect]
    exact ⟨rfl,
      prodCalls_nodup v _ _ (pyRange_nodup _ _ _ (orOne_ne_zero st0))
        (pyRange_nodup _ _ _ (orOne_ne_zero st1)),
      fun a b w => prodCalls_mem v _ _ a b w⟩
  · rw [hcol]
    exact ⟨rfl, pairRow_nodup v j _ (pyRange_nodup _ _ _ (orOne_ne_zero st0)),
      fun a b w => pairRow_mem v j _ a b w⟩
  · rw [hrowseg]
    exact ⟨rfl, pairCol_nodup v i _ (pyRange_nodup _ _ _ (orOne_ne_zero st1)),
      fun a b w => pairCol_mem v i _ a b w⟩
  · rw [hbare]
    exact ⟨rfl, pairCol_nodup v i _ (pyRange_nodup _ _ _ (by decide)),
      fun a b w => pairCol_mem v i _ a b w⟩

/-- Witness for C7 at a concrete matrix and concrete keys: the two-integer
key makes exactly the one requested set-value call, and a bare integer key
row write produces a duplicate-free log with no exception. -/
theorem c7_setitem_witness :
    Matrix.setitem { pointer := some mat0 } (.tup [.int 1, .int 2]) 5
      = ([(1, 2, 5)], none)
    ∧ (Matrix.setitem { pointer := some mat0 } (.int 1) 5).1.Nodup := by
  have h := c7_setitem_one_call_per_cell { pointer := some mat0 } mat0 rfl
    5 1 2 0 2 0 3 none none
  exact ⟨h.2.1, h.2.2.2.2.2.2.1⟩

end Parasail
